import Mathlib

/-!
# bbxm-kernel drivers: a shallow embedding

Lean models of code from four files of the BeagleBoard-xM kernel tree:

* `arch/arm/mach-omap2/board-omap3beagle.c` (board revision detection),
* `drivers/media/video/mt9p031.c` (Aptina MT9P031 camera sensor),
* `drivers/video/omap2/displays/panel-tfc-s9700rtwv35tr01b.c` (TFC LCD panel),
* `arch/arm/mach-omap2/omap2plus-cpufreq.c` (OMAP2+ cpufreq driver).

Conventions.  A C `int` / `s32` is an `Int`, an `unsigned int` / `u32` / `u16` is a `Nat`.
Unsigned arithmetic wraps explicitly (`% 2^32`).  Signed overflow, division by zero and a
NULL dereference are undefined behaviour in C: a function whose execution reaches one of
them returns `none`.  Hardware and kernel services the drivers call are recorded in a log
carried by the state; their answers are supplied by the environment.

What is left out: locking (`power_lock` makes each `mt9p031_set_power` call atomic, and a
call is one function application here), the `msleep` calls of the panel driver, and the
`dev_dbg` / `pr_err` messages.  Kernel macros (`clamp`, `ALIGN`, `DIV_ROUND_UP`,
`DIV_ROUND_CLOSEST`, `swab16`) are transcribed from `linux/kernel.h` of this kernel
generation, where `DIV_ROUND_CLOSEST(x, d)` is `(x + d / 2) / d`.
-/

/-! ## C integer arithmetic -/

def INT_MIN : Int := -2147483648

def INT_MAX : Int := 2147483647

/-- The value of a signed 32-bit expression: `none` when it is not representable. -/
def s32_chk (r : Int) : Option Int :=
  if INT_MIN ≤ r ∧ r ≤ INT_MAX then some r else none

/-- Signed addition `a + b` on `int`. -/
def s32_add (a b : Int) : Option Int := s32_chk (a + b)

/-- Signed subtraction `a - b` on `int`. -/
def s32_sub (a b : Int) : Option Int := s32_chk (a - b)

/-- Signed division `a / b` on `int` (truncating); undefined for `b = 0` and on overflow. -/
def s32_div (a b : Int) : Option Int :=
  if b = 0 then none else s32_chk (Int.tdiv a b)

/-- Conversion of an integer value to `unsigned int` (reduction modulo 2^32). -/
def to_u32 (x : Int) : Nat := (x % 4294967296).toNat

/-- Conversion of an unsigned value to `s32` (two's complement). -/
def to_s32 (n : Nat) : Int :=
  if n % 4294967296 < 2147483648 then ((n % 4294967296 : Nat) : Int)
  else ((n % 4294967296 : Nat) : Int) - 4294967296

/-- Conversion to `u16`. -/
def to_u16 (n : Nat) : Nat := n % 65536

/-- Unsigned division; undefined for a zero divisor. -/
def u32_div (a b : Nat) : Option Nat := if b = 0 then none else some (a / b)

/-- The C logical negation `!on` of an `int`. -/
def c_not (v : Int) : Int := if v = 0 then 1 else 0

/-- Linux `swab16`: swap the two bytes of a 16-bit word. -/
def swab16 (x : Nat) : Nat := (x % 256) * 256 + (x / 256) % 256

/-- Linux `clamp(val, min, max)` from kernel.h:
`__val = __val < __min ? __min : __val; __val > __max ? __max : __val`. -/
def clamp (val min max : Int) : Int :=
  let v := if val < min then min else val
  if v > max then max else v

/-- Linux `ALIGN(x, a)` from kernel.h: `((x) + (a - 1)) & ~(a - 1)`. -/
def ALIGN (x a : Int) : Int := Int.land (x + (a - 1)) (Int.lnot (a - 1))

/-! ## MT9P031 camera sensor -/

def MT9P031_EXTCLK_FREQ : Int := 20000000
def MT9P031_ROW_START_MIN : Int := 1
def MT9P031_ROW_START_MAX : Int := 2004
def MT9P031_COLUMN_START_MIN : Int := 1
def MT9P031_COLUMN_START_MAX : Int := 2750
def MT9P031_WINDOW_HEIGHT_MIN : Int := 2
def MT9P031_WINDOW_HEIGHT_MAX : Int := 2003
def MT9P031_WINDOW_WIDTH_MIN : Int := 18
def MT9P031_WINDOW_WIDTH_MAX : Int := 2751
def MT9P031_OUTPUT_CONTROL : Nat := 0x07
def MT9P031_OUTPUT_CONTROL_CEN : Nat := 2
def MT9P031_OUTPUT_CONTROL_SYN : Nat := 1
def MT9P031_RST : Nat := 0x0d
def MT9P031_RST_ENABLE : Nat := 1
def MT9P031_RST_DISABLE : Nat := 0

/-- Enum `v4l2_subdev_format_whence` of the V4L2 subdev API. -/
def V4L2_SUBDEV_FORMAT_TRY : Nat := 0
def V4L2_SUBDEV_FORMAT_ACTIVE : Nat := 1

/-- Operations the sensor driver performs on the board and on the I2C bus. -/
inductive HwOp where
  | reset (active : Int)
  | set_xclk (hz : Int)
  | msleep (ms : Nat)
  | i2c_smbus_write_word_data (reg : Nat) (data : Nat)
  deriving DecidableEq, Repr

/-- The struct `mt9p031_platform_data`; a callback pointer is modelled by whether it is set. -/
structure mt9p031_platform_data where
  set_xclk : Bool
  reset : Bool
  vdd_io : Int
  version : Int
  deriving DecidableEq, Repr

/-- The struct `v4l2_rect` (all fields `__s32`). -/
structure v4l2_rect where
  left : Int
  top : Int
  width : Int
  height : Int
  deriving DecidableEq, Repr

/-- The struct `v4l2_mbus_framefmt` (all fields `__u32`). -/
structure v4l2_mbus_framefmt where
  width : Nat
  height : Nat
  code : Nat
  field : Nat
  colorspace : Nat
  deriving DecidableEq, Repr

/-- The struct `mt9p031`, with the I2C bus script, the hardware log, the power state of the
chip and the number of `WARN_ON` reports as ghost fields. -/
structure mt9p031 where
  rect : v4l2_rect
  format : v4l2_mbus_framefmt
  pdata : mt9p031_platform_data
  power_count : Int
  xskip : Nat
  yskip : Nat
  output_control : Nat
  /-- Ghost: results the next I2C word writes will return (0 once exhausted). -/
  bus : List Int
  /-- Ghost: operations performed so far, oldest first. -/
  log : List HwOp
  /-- Ghost: clock running and RESET_BAR released. -/
  powered : Bool
  /-- Ghost: how many times `WARN_ON` fired. -/
  warnings : Nat
  deriving DecidableEq, Repr

/-- Append board operations to the log. -/
def mt9p031.emit (s : mt9p031) (ops : List HwOp) : mt9p031 :=
  { s with log := s.log ++ ops }

/-- The part of the state that is hardware: bus, log, cached register, power state. -/
def mt9p031.hw (s : mt9p031) : List Int × List HwOp × Nat × Bool :=
  (s.bus, s.log, s.output_control, s.powered)

def reg_write (s : mt9p031) (reg data : Nat) : Int × mt9p031 :=
  (s.bus.headD 0,
   { s with bus := s.bus.tail,
            log := s.log ++ [HwOp.i2c_smbus_write_word_data reg (swab16 data)] })

def mt9p031_set_output_control (s : mt9p031) (clear set : Nat) : Int × mt9p031 :=
  let value : Nat :=
    to_u16 (Int.toNat (Int.lor (Int.land s.output_control (Int.lnot clear)) set))
  let r := reg_write s MT9P031_OUTPUT_CONTROL value
  if r.1 < 0 then (r.1, r.2)
  else (0, { r.2 with output_control := value })

def mt9p031_reset (s : mt9p031) : Int × mt9p031 :=
  let r1 := reg_write s MT9P031_RST MT9P031_RST_ENABLE
  if r1.1 < 0 then (r1.1, r1.2)
  else
    let r2 := reg_write r1.2 MT9P031_RST MT9P031_RST_DISABLE
    if r2.1 < 0 then (r2.1, r2.2)
    else mt9p031_set_output_control r2.2 MT9P031_OUTPUT_CONTROL_CEN 0

def mt9p031_power_on (s : mt9p031) : Int × mt9p031 :=
  let s1 := if s.pdata.reset then s.emit [HwOp.reset 1, HwOp.msleep 1] else s
  let s2 := if s1.pdata.set_xclk then s1.emit [HwOp.set_xclk MT9P031_EXTCLK_FREQ] else s1
  let s3 := if s2.pdata.reset then s2.emit [HwOp.reset 0, HwOp.msleep 1] else s2
  let r := mt9p031_reset { s3 with powered := true }
  if r.1 < 0 then (r.1, r.2) else (0, r.2)

def mt9p031_power_off (s : mt9p031) : mt9p031 :=
  let s1 := if s.pdata.reset then s.emit [HwOp.reset 1, HwOp.msleep 1] else s
  let s2 := if s1.pdata.set_xclk then s1.emit [HwOp.set_xclk 0] else s1
  { s2 with powered := false }

/-- The tail of `mt9p031_set_power` ("Update the power count."):
`power_count += on ? 1 : -1; WARN_ON(power_count < 0); return ret` with `ret = 0`. -/
def mt9p031_update_power_count (s : mt9p031) (on_ : Int) : Option (Int × mt9p031) :=
  match s32_add s.power_count (if on_ ≠ 0 then 1 else -1) with
  | none => none
  | some pc =>
    some (0, { s with power_count := pc,
                      warnings := if pc < 0 then s.warnings + 1 else s.warnings })

def mt9p031_set_power (s : mt9p031) (on_ : Int) : Option (Int × mt9p031) :=
  if s.power_count = c_not on_ then
    if on_ ≠ 0 then
      let r := mt9p031_power_on s
      if r.1 ≠ 0 then some (r.1, r.2)
      else mt9p031_update_power_count r.2 on_
    else mt9p031_update_power_count (mt9p031_power_off s) on_
  else mt9p031_update_power_count s on_

/-- A sequence of `mt9p031_set_power` calls, one per element of `calls`; returns the return
codes in call order and the final state. -/
def set_power_calls : mt9p031 → List Int → Option (List Int × mt9p031)
  | s, [] => some ([], s)
  | s, on_ :: rest =>
    match mt9p031_set_power s on_ with
    | none => none
    | some (ret, s1) =>
      match set_power_calls s1 rest with
      | none => none
      | some (rets, s2) => some (ret :: rets, s2)

/-- Number of calls with `on != 0`. -/
def on_calls (calls : List Int) : Nat := calls.countP (fun v => decide (v ≠ 0))

/-- Number of calls with `on == 0`. -/
def off_calls (calls : List Int) : Nat := calls.countP (fun v => decide (v = 0))

/-! ### Crop rectangle -/

/-- The struct `v4l2_subdev_fh`: the try format and try crop rectangle of each pad. -/
structure v4l2_subdev_fh where
  try_fmt : Nat → v4l2_mbus_framefmt
  try_crop : Nat → v4l2_rect

/-- The struct `v4l2_subdev_crop`. -/
structure v4l2_subdev_crop where
  which : Nat
  pad : Nat
  rect : v4l2_rect
  deriving DecidableEq, Repr

/-- A non-NULL pointer returned by the pad accessors: into the file handle's try state of a
pad, or into the device structure. -/
inductive PadPtr where
  | try_pad (pad : Nat)
  | active
  deriving DecidableEq, Repr

/-- The pointer returned by `mt9p031_get_pad_format`; `none` is NULL. -/
def mt9p031_get_pad_format (pad which : Nat) : Option PadPtr :=
  if which = V4L2_SUBDEV_FORMAT_TRY then some (PadPtr.try_pad pad)
  else if which = V4L2_SUBDEV_FORMAT_ACTIVE then some PadPtr.active
  else none

/-- The pointer returned by `mt9p031_get_pad_crop`; `none` is NULL. -/
def mt9p031_get_pad_crop (pad which : Nat) : Option PadPtr :=
  if which = V4L2_SUBDEV_FORMAT_TRY then some (PadPtr.try_pad pad)
  else if which = V4L2_SUBDEV_FORMAT_ACTIVE then some PadPtr.active
  else none

/-- Read through a format pointer. -/
def load_format (s : mt9p031) (fh : v4l2_subdev_fh) : PadPtr → v4l2_mbus_framefmt
  | PadPtr.try_pad pad => fh.try_fmt pad
  | PadPtr.active => s.format

/-- Read through a crop pointer. -/
def load_crop (s : mt9p031) (fh : v4l2_subdev_fh) : PadPtr → v4l2_rect
  | PadPtr.try_pad pad => fh.try_crop pad
  | PadPtr.active => s.rect

/-- The stores `f->width = width; f->height = height`. -/
def store_format_size (s : mt9p031) (fh : v4l2_subdev_fh) (f : PadPtr) (width height : Nat) :
    mt9p031 × v4l2_subdev_fh :=
  match f with
  | PadPtr.try_pad pad =>
    (s, { fh with try_fmt := fun q =>
            if q = pad then { fh.try_fmt pad with width := width, height := height }
            else fh.try_fmt q })
  | PadPtr.active => ({ s with format := { s.format with width := width, height := height } }, fh)

/-- The store `*c = rect`. -/
def store_crop (s : mt9p031) (fh : v4l2_subdev_fh) (c : PadPtr) (rect : v4l2_rect) :
    mt9p031 × v4l2_subdev_fh :=
  match c with
  | PadPtr.try_pad pad =>
    (s, { fh with try_crop := fun q => if q = pad then rect else fh.try_crop q })
  | PadPtr.active => ({ s with rect := rect }, fh)

/-- Linux `DIV_ROUND_CLOSEST(x, divisor)` of this kernel generation:
`((x) + ((__divisor) / 2)) / (__divisor)`, here on `s32` operands. -/
def DIV_ROUND_CLOSEST (x divisor : Int) : Option Int :=
  (s32_div divisor 2).bind fun half =>
  (s32_add x half).bind fun sum =>
  s32_div sum divisor

/-- Linux `DIV_ROUND_UP(n, d)` = `((n) + (d) - 1) / (d)`, evaluated in `unsigned int`. -/
def DIV_ROUND_UP (n d : Nat) : Option Nat :=
  u32_div ((n + d + 4294967295) % 4294967296) d

/-- Returns the skip factor (`u16`) and the value left in `*target`. -/
def mt9p031_skip_for_crop (source target max_skip : Int) : Option (Nat × Int) :=
  (s32_div source 4).bind fun q =>
  (s32_sub source q).bind fun d =>
  if d < target then some (1, source)
  else
    (DIV_ROUND_CLOSEST source target).bind fun c =>
    let skip0 : Nat := to_u32 c
    let skip : Nat := if skip0 > to_u32 max_skip then to_u32 max_skip else skip0
    (DIV_ROUND_UP (to_u32 source) ((2 * skip) % 4294967296)).bind fun r =>
    some (to_u16 skip, to_s32 ((2 * r) % 4294967296))

/-- The rectangle `mt9p031_set_crop` computes from the request ("Clamp the crop rectangle
boundaries and align them to a multiple of 2 pixels"). -/
def mt9p031_set_crop_rect (req : v4l2_rect) : v4l2_rect :=
  { width := ALIGN (clamp req.width MT9P031_WINDOW_WIDTH_MIN MT9P031_WINDOW_WIDTH_MAX) 2,
    height := ALIGN (clamp req.height MT9P031_WINDOW_HEIGHT_MIN MT9P031_WINDOW_HEIGHT_MAX) 2,
    left := ALIGN (clamp req.left MT9P031_COLUMN_START_MIN MT9P031_COLUMN_START_MAX) 2,
    top := ALIGN (clamp req.top MT9P031_ROW_START_MIN MT9P031_ROW_START_MAX) 2 }

/-- The end of `mt9p031_set_crop`:
`*c = rect; crop->rect = rect; mt9p031->xskip = xskip; mt9p031->yskip = yskip;
mt9p031->rect = *c; return 0`. -/
def mt9p031_set_crop_commit (s : mt9p031) (fh : v4l2_subdev_fh) (crop : v4l2_subdev_crop)
    (c : PadPtr) (rect : v4l2_rect) (xskip yskip : Nat) :
    Int × mt9p031 × v4l2_subdev_fh × v4l2_subdev_crop :=
  let st := store_crop s fh c rect
  (0,
   { st.1 with xskip := xskip, yskip := yskip, rect := load_crop st.1 st.2 c },
   st.2,
   { crop with rect := rect })

def mt9p031_set_crop (s : mt9p031) (fh : v4l2_subdev_fh) (crop : v4l2_subdev_crop) :
    Option (Int × mt9p031 × v4l2_subdev_fh × v4l2_subdev_crop) :=
  let rect := mt9p031_set_crop_rect crop.rect
  match mt9p031_get_pad_crop crop.pad crop.which with
  | none => none
  | some c =>
    if rect.width ≠ (load_crop s fh c).width ∨ rect.height ≠ (load_crop s fh c).height then
      match mt9p031_get_pad_format crop.pad crop.which with
      | none => none
      | some f =>
        match mt9p031_skip_for_crop rect.width (to_s32 (load_format s fh f).width) 7 with
        | none => none
        | some x =>
          match mt9p031_skip_for_crop rect.height (to_s32 (load_format s fh f).height) 8 with
          | none => none
          | some y =>
            let st := store_format_size s fh f (to_u32 x.2) (to_u32 y.2)
            some (mt9p031_set_crop_commit st.1 st.2 crop c rect x.1 y.1)
    else some (mt9p031_set_crop_commit s fh crop c rect s.xskip s.yskip)

/-! ### Output format -/

/-- The struct `v4l2_subdev_format`. -/
structure v4l2_subdev_format where
  which : Nat
  pad : Nat
  format : v4l2_mbus_framefmt
  deriving DecidableEq, Repr

/-- Linux `min(x, y)` from kernel.h on `s32` operands: `_min1 < _min2 ? _min1 : _min2`. -/
def c_min (x y : Int) : Int := if x < y then x else y

/-- Linux `ALIGN(x, a)` on a `__u32` operand: `(x + (a - 1)) & ~(a - 1)` in 32 bits. -/
def ALIGN_u32 (x a : Nat) : Nat := Nat.ldiff ((x + (a - 1)) % 4294967296) (a - 1)

/-- Linux `clamp_t(int, val, min, max)` on an unsigned `val`: the cast to `int`, then the
clamp. -/
def clamp_t_int (val : Nat) (min max : Int) : Int := clamp (to_s32 val) min max

/-- Returns the skip factor (`u16`) and the value left in `*source`. -/
def mt9p031_skip_for_scale (source target max_skip max : Int) : Option (Nat × Int) :=
  (s32_div source 4).bind fun q =>
  (s32_sub source q).bind fun d =>
  if d < target then some (1, target)
  else
    (s32_div target 2).bind fun half =>
    (s32_add source half).bind fun sum =>
    (s32_div (c_min max sum) target).bind fun c =>
    let skip0 : Nat := to_u32 c
    let skip : Nat := if skip0 > to_u32 max_skip then to_u32 max_skip else skip0
    some (to_u16 skip, to_s32 ((to_u32 target * skip) % 4294967296))

/-- The assignment of `rect.left` (and of `rect.top`) in `mt9p031_set_format`:
`if (size + start > max) (max - size) / 2 else start`. -/
def mt9p031_set_format_start (size start max : Int) : Option Int :=
  (s32_add size start).bind fun e =>
  if e > max then (s32_sub max size).bind fun d => s32_div d 2
  else some start

def mt9p031_set_format (s : mt9p031) (fh : v4l2_subdev_fh) (format : v4l2_subdev_format) :
    Option (Int × mt9p031 × v4l2_subdev_fh × v4l2_subdev_format) :=
  let width : Nat :=
    to_u32 (clamp_t_int (ALIGN_u32 format.format.width 2) 2 MT9P031_WINDOW_WIDTH_MAX)
  let height : Nat :=
    to_u32 (clamp_t_int (ALIGN_u32 format.format.height 2) 2 MT9P031_WINDOW_HEIGHT_MAX)
  match mt9p031_get_pad_crop format.pad format.which with
  | none => none
  | some c =>
    let crop := load_crop s fh c
    (mt9p031_skip_for_scale crop.width (to_s32 width) 7 MT9P031_WINDOW_WIDTH_MAX).bind
    fun x =>
    (mt9p031_set_format_start x.2 crop.left MT9P031_WINDOW_WIDTH_MAX).bind fun left =>
    (mt9p031_skip_for_scale crop.height (to_s32 height) 8 MT9P031_WINDOW_HEIGHT_MAX).bind
    fun y =>
    (mt9p031_set_format_start y.2 crop.top MT9P031_WINDOW_HEIGHT_MAX).bind fun top =>
    let rect : v4l2_rect := { left := left, top := top, width := x.2, height := y.2 }
    let st := store_crop s fh c rect
    match mt9p031_get_pad_format format.pad format.which with
    | none => none
    | some f =>
      let st2 := store_format_size st.1 st.2 f width height
      some (0,
        { st2.1 with xskip := x.1, yskip := y.1, rect := load_crop st2.1 st2.2 c },
        st2.2,
        { format with format := load_format st2.1 st2.2 f })

/-! ## TFC S9700RTWV35TR-01B panel -/

/-- Enum `omap_dss_display_state` of the OMAP display subsystem. -/
inductive omap_dss_display_state where
  | OMAP_DSS_DISPLAY_DISABLED
  | OMAP_DSS_DISPLAY_ACTIVE
  | OMAP_DSS_DISPLAY_SUSPENDED
  deriving DecidableEq, Repr

/-- Calls that reach the display core or the board code. -/
inductive DssOp where
  | omapdss_dpi_display_enable
  | omapdss_dpi_display_disable
  | platform_enable
  | platform_disable
  deriving DecidableEq, Repr

/-- The part of the struct `omap_dss_device` the panel driver reads and writes, with the log
of calls as a ghost field. -/
structure omap_dss_device where
  state : omap_dss_display_state
  log : List DssOp
  deriving DecidableEq, Repr

/-- The display core and the board callbacks of a device: functions outside this driver.
A callback that is `none` is a NULL pointer. -/
structure omap_dss_env where
  omapdss_dpi_display_enable : omap_dss_device → Int × omap_dss_device
  omapdss_dpi_display_disable : omap_dss_device → omap_dss_device
  platform_enable : Option (omap_dss_device → Int × omap_dss_device)
  platform_disable : Option (omap_dss_device → omap_dss_device)

def tfc_panel_enable (env : omap_dss_env) (dssdev : omap_dss_device) :
    Int × omap_dss_device :=
  if dssdev.state = omap_dss_display_state.OMAP_DSS_DISPLAY_ACTIVE then (0, dssdev)
  else
    let r := env.omapdss_dpi_display_enable dssdev
    if r.1 ≠ 0 then (r.1, { r.2 with state := omap_dss_display_state.OMAP_DSS_DISPLAY_ACTIVE })
    else
      match env.platform_enable with
      | some enable =>
        let r2 := enable r.2
        if r2.1 ≠ 0 then
          (r2.1, { env.omapdss_dpi_display_disable r2.2 with state := omap_dss_display_state.OMAP_DSS_DISPLAY_ACTIVE })
        else (0, r2.2)
      | none => (0, r.2)

def tfc_panel_disable (env : omap_dss_env) (dssdev : omap_dss_device) : omap_dss_device :=
  if dssdev.state ≠ omap_dss_display_state.OMAP_DSS_DISPLAY_ACTIVE then dssdev
  else
    let d1 := match env.platform_disable with
      | some disable => disable dssdev
      | none => dssdev
    { env.omapdss_dpi_display_disable d1 with state := omap_dss_display_state.OMAP_DSS_DISPLAY_DISABLED }

/-- A display core that enables and disables DPI successfully and only records the call. -/
def dss_core_ok : omap_dss_env :=
  { omapdss_dpi_display_enable := fun d =>
      (0, { d with log := d.log ++ [DssOp.omapdss_dpi_display_enable] }),
    omapdss_dpi_display_disable := fun d =>
      { d with log := d.log ++ [DssOp.omapdss_dpi_display_disable] },
    platform_enable := none,
    platform_disable := none }

/-- A display core whose DPI enable fails with the given error and only records the call. -/
def dss_core_fail (err : Int) : omap_dss_env :=
  { omapdss_dpi_display_enable := fun d =>
      (err, { d with log := d.log ++ [DssOp.omapdss_dpi_display_enable] }),
    omapdss_dpi_display_disable := fun d =>
      { d with log := d.log ++ [DssOp.omapdss_dpi_display_disable] },
    platform_enable := none,
    platform_disable := none }

/-- A display core whose DPI enable succeeds, with a board `platform_enable` that fails. -/
def dss_board_fail (err : Int) : omap_dss_env :=
  { omapdss_dpi_display_enable := fun d =>
      (0, { d with log := d.log ++ [DssOp.omapdss_dpi_display_enable] }),
    omapdss_dpi_display_disable := fun d =>
      { d with log := d.log ++ [DssOp.omapdss_dpi_display_disable] },
    platform_enable := some fun d => (err, { d with log := d.log ++ [DssOp.platform_enable] }),
    platform_disable := none }

/-! ## OMAP2+ cpufreq driver -/

def EINVAL : Int := 22
def CPUFREQ_PRECHANGE : Nat := 0
def CPUFREQ_POSTCHANGE : Nat := 1

/-- The fields of the struct `cpufreq_policy` that `omap_target` reads; `cpus` lists the CPUs
of the mask in the order `for_each_cpu` visits them. -/
structure cpufreq_policy where
  cpu : Nat
  min : Nat
  max : Nat
  cpus : List Nat
  deriving DecidableEq, Repr

/-- The struct `cpufreq_freqs`. -/
structure cpufreq_freqs where
  cpu : Nat
  old : Nat
  new : Nat
  deriving DecidableEq, Repr

/-- Calls `omap_target` makes into the clock framework and the cpufreq core. -/
inductive CpufreqOp where
  | cpufreq_frequency_table_target (target_freq relation : Nat)
  | clk_round_rate (rate : Nat)
  | clk_get_rate
  | cpufreq_notify_transition (freqs : cpufreq_freqs) (state : Nat)
  | clk_set_rate (rate : Nat)
  deriving DecidableEq, Repr

/-- What `omap_target` can change: the MPU clock rate, the global and the per-CPU
`loops_per_jiffy`, and (ghost) the log of calls, oldest first. -/
structure omap_cpufreq where
  mpu_clk_rate : Nat
  loops_per_jiffy : Nat
  cpu_data_loops_per_jiffy : Nat → Nat
  log : List CpufreqOp

/-- The configuration and the kernel services `omap_target` depends on, none of which is
defined in this driver.  `freq_table` is `none` for a NULL table, otherwise the `frequency`
column of the table; `clk_set_rate cur rate` answers the return code and the rate the clock
has afterwards. -/
structure omap_platform where
  is_smp : Bool
  CONFIG_SMP : Bool
  NR_CPUS : Nat
  num_online_cpus : Nat
  freq_table : Option (List Nat)
  cpufreq_frequency_table_target : cpufreq_policy → List Nat → Nat → Nat → Int × Nat
  clk_round_rate : Nat → Int
  clk_set_rate : Nat → Nat → Int × Nat
  cpufreq_scale : Nat → Nat → Nat → Nat

/-- Append calls to the log. -/
def omap_cpufreq.emit (k : omap_cpufreq) (ops : List CpufreqOp) : omap_cpufreq :=
  { k with log := k.log ++ ops }

def omap_getspeed (p : omap_platform) (k : omap_cpufreq) (cpu : Nat) : Nat × omap_cpufreq :=
  if cpu ≥ p.NR_CPUS then (0, k)
  else ((k.mpu_clk_rate / 1000) % 4294967296, k.emit [CpufreqOp.clk_get_rate])

/-- Lines 91-111 of `omap_target`: the value of `freqs.new`, or the early return code of a
failed table lookup (`Sum.inl`). -/
def omap_target_resolve (p : omap_platform) (k : omap_cpufreq) (policy : cpufreq_policy)
    (target_freq relation : Nat) : Option (Sum Int Nat × omap_cpufreq) :=
  match p.freq_table with
  | some table =>
    let k1 := k.emit [CpufreqOp.cpufreq_frequency_table_target target_freq relation]
    let r := p.cpufreq_frequency_table_target policy table target_freq relation
    if r.1 ≠ 0 then some (Sum.inl r.1, k1)
    else
      match table.get? r.2 with
      | none => none
      | some frequency => some (Sum.inr frequency, k1)
  | none =>
    let t1 := if target_freq < policy.min then policy.min else target_freq
    let t2 := if t1 > policy.max then policy.max else t1
    let rate := (t2 * 1000) % 4294967296
    some (Sum.inr (to_u32 (Int.tdiv (p.clk_round_rate rate) 1000)),
          k.emit [CpufreqOp.clk_round_rate rate])

/-- The notifier code of `omap_target` for one transition state: on a uniprocessor
(`!is_smp()`) one `cpufreq_notify_transition` with `freqs.cpu = policy->cpu`, otherwise the
loop `for_each_cpu(i, policy->cpus) { freqs.cpu = i; cpufreq_notify_transition(...) }`. -/
def omap_target_notify (p : omap_platform) (k : omap_cpufreq) (policy : cpufreq_policy)
    (old new state : Nat) : omap_cpufreq :=
  if p.is_smp = false then
    k.emit [CpufreqOp.cpufreq_notify_transition
      { cpu := policy.cpu, old := old, new := new } state]
  else
    k.emit (policy.cpus.map fun i => CpufreqOp.cpufreq_notify_transition
      { cpu := i, old := old, new := new } state)

/-- The `loops_per_jiffy` code of `omap_target`: the global value on a uniprocessor, the
per-CPU values of `policy->cpus` on SMP when built with `CONFIG_SMP`. -/
def omap_target_update_lpj (p : omap_platform) (k : omap_cpufreq) (policy : cpufreq_policy)
    (old new : Nat) : omap_cpufreq :=
  if p.is_smp = false then
    { k with loops_per_jiffy := p.cpufreq_scale k.loops_per_jiffy old new }
  else if p.CONFIG_SMP = true then
    policy.cpus.foldl (fun (a : omap_cpufreq) i =>
      { a with cpu_data_loops_per_jiffy := fun j =>
          if j = i then p.cpufreq_scale (a.cpu_data_loops_per_jiffy i) old new
          else a.cpu_data_loops_per_jiffy j }) k
  else k

/-- Lines 112-176 of `omap_target`, entered with `freqs.new` resolved. -/
def omap_target_transition (p : omap_platform) (k : omap_cpufreq) (policy : cpufreq_policy)
    (new : Nat) : Int × omap_cpufreq :=
  if new = 0 then (-EINVAL, k)
  else
    let g := omap_getspeed p k policy.cpu
    if g.1 = new then (0, g.2)
    else
      let k1 := omap_target_notify p g.2 policy g.1 new CPUFREQ_PRECHANGE
      let rate := (new * 1000) % 4294967296
      let sr := p.clk_set_rate k1.mpu_clk_rate rate
      let k2 : omap_cpufreq :=
        { k1 with mpu_clk_rate := sr.2, log := k1.log ++ [CpufreqOp.clk_set_rate rate] }
      let g2 := omap_getspeed p k2 policy.cpu
      let k3 := omap_target_update_lpj p g2.2 policy g.1 g2.1
      (sr.1, omap_target_notify p k3 policy g.1 g2.1 CPUFREQ_POSTCHANGE)

/-- The log `b` is the log `a` followed by calls none of which is a `clk_round_rate`. -/
def log_grows (a b : List CpufreqOp) : Prop :=
  ∃ rest, b = a ++ rest ∧ ∀ rate, CpufreqOp.clk_round_rate rate ∉ rest

def omap_target (p : omap_platform) (k : omap_cpufreq) (policy : cpufreq_policy)
    (target_freq relation : Nat) : Option (Int × omap_cpufreq) :=
  if p.is_smp ∧ p.num_online_cpus < p.NR_CPUS then some (0, k)
  else
    match omap_target_resolve p k policy target_freq relation with
    | none => none
    | some (Sum.inl ret, k1) => some (ret, k1)
    | some (Sum.inr new, k1) => some (omap_target_transition p k1 policy new)

/-! ## OMAP3 Beagle board revision -/

def OMAP3BEAGLE_BOARD_UNKN : Nat := 0
def OMAP3BEAGLE_BOARD_AXBX : Nat := 1
def OMAP3BEAGLE_BOARD_C1_3 : Nat := 2
def OMAP3BEAGLE_BOARD_C4 : Nat := 3
def OMAP3BEAGLE_BOARD_XM : Nat := 4
def OMAP3BEAGLE_BOARD_XMC : Nat := 5

/-- Calls `omap3_beagle_init_rev` makes into the pin multiplexer and gpiolib; the mux call
always asks for `OMAP_PIN_INPUT_PULLUP`. -/
inductive GpioOp where
  | omap_mux_init_gpio (gpio : Nat)
  | gpio_request (gpio : Nat)
  | gpio_direction_input (gpio : Nat)
  | gpio_get_value (gpio : Nat)
  | gpio_free (gpio : Nat)
  deriving DecidableEq, Repr

/-- What gpiolib answers: the return code of `gpio_request` and the value `gpio_get_value`
reads, per GPIO number. -/
structure beagle_gpio where
  gpio_request : Nat → Int
  gpio_get_value : Nat → Int

/-- The variable `omap3_beagle_version` (`u8`), with the log of calls as a ghost field. -/
structure beagle_board where
  omap3_beagle_version : Nat
  log : List GpioOp
  deriving DecidableEq, Repr

/-- Append calls to the log. -/
def beagle_board.emit (b : beagle_board) (ops : List GpioOp) : beagle_board :=
  { b with log := b.log ++ ops }

/-- The C expression `v << n` on `int`: undefined for a negative `v` and on overflow. -/
def s32_shl (v : Int) (n : Nat) : Option Int :=
  if 0 ≤ v ∧ v * 2 ^ n ≤ INT_MAX then some (v * 2 ^ n) else none

/-- The `switch (beagle_rev)` of `omap3_beagle_init_rev`: the value assigned to
`omap3_beagle_version`. -/
def omap3_beagle_rev_switch (beagle_rev : Nat) : Nat :=
  if beagle_rev = 7 then OMAP3BEAGLE_BOARD_AXBX
  else if beagle_rev = 6 then OMAP3BEAGLE_BOARD_C1_3
  else if beagle_rev = 5 then OMAP3BEAGLE_BOARD_C4
  else if beagle_rev = 0 then OMAP3BEAGLE_BOARD_XM
  else if beagle_rev = 1 then OMAP3BEAGLE_BOARD_XM
  else if beagle_rev = 2 then OMAP3BEAGLE_BOARD_XMC
  else OMAP3BEAGLE_BOARD_XMC

def omap3_beagle_init_rev (env : beagle_gpio) (b : beagle_board) : Option beagle_board :=
  let b0 := b.emit [GpioOp.omap_mux_init_gpio 171, GpioOp.omap_mux_init_gpio 172,
    GpioOp.omap_mux_init_gpio 173, GpioOp.gpio_request 171]
  if env.gpio_request 171 < 0 then
    some { b0 with omap3_beagle_version := OMAP3BEAGLE_BOARD_UNKN }
  else
    let b1 := b0.emit [GpioOp.gpio_request 172]
    if env.gpio_request 172 < 0 then
      some { b1.emit [GpioOp.gpio_free 171] with
        omap3_beagle_version := OMAP3BEAGLE_BOARD_UNKN }
    else
      let b2 := b1.emit [GpioOp.gpio_request 173]
      if env.gpio_request 173 < 0 then
        some { b2.emit [GpioOp.gpio_free 172, GpioOp.gpio_free 171] with
          omap3_beagle_version := OMAP3BEAGLE_BOARD_UNKN }
      else
        let b3 := b2.emit [GpioOp.gpio_direction_input 171, GpioOp.gpio_direction_input 172,
          GpioOp.gpio_direction_input 173, GpioOp.gpio_get_value 171,
          GpioOp.gpio_get_value 172, GpioOp.gpio_get_value 173]
        (s32_shl (env.gpio_get_value 172) 1).bind fun v1 =>
        (s32_shl (env.gpio_get_value 173) 2).bind fun v2 =>
        let beagle_rev : Nat :=
          to_u16 (to_u32 (Int.lor (Int.lor (env.gpio_get_value 171) v1) v2))
        some { b3 with omap3_beagle_version := omap3_beagle_rev_switch beagle_rev }

/-- The revision table of the comment above the enum, keyed by the levels of
(GPIO173, GPIO172, GPIO171); `none` for a pattern the table does not list. -/
def beagle_documented_rev (gpio173 gpio172 gpio171 : Int) : Option Nat :=
  if gpio173 = 1 ∧ gpio172 = 1 ∧ gpio171 = 1 then some OMAP3BEAGLE_BOARD_AXBX
  else if gpio173 = 1 ∧ gpio172 = 1 ∧ gpio171 = 0 then some OMAP3BEAGLE_BOARD_C1_3
  else if gpio173 = 1 ∧ gpio172 = 0 ∧ gpio171 = 1 then some OMAP3BEAGLE_BOARD_C4
  else if gpio173 = 0 ∧ gpio172 = 0 ∧ gpio171 = 0 then some OMAP3BEAGLE_BOARD_XM
  else if gpio173 = 0 ∧ gpio172 = 0 ∧ gpio171 = 1 then some OMAP3BEAGLE_BOARD_XM
  else if gpio173 = 0 ∧ gpio172 = 1 ∧ gpio171 = 0 then some OMAP3BEAGLE_BOARD_XMC
  else none

/-- The CPUs a transition concerns: `policy->cpu` on a uniprocessor (`!is_smp()`), every
CPU of `policy->cpus` on SMP. -/
def omap_target_affected (p : omap_platform) (policy : cpufreq_policy) : List Nat :=
  if p.is_smp = false then [policy.cpu] else policy.cpus

/-- How many `cpufreq_notify_transition` calls for `cpu` in transition state `state` the
calls `ops` contain. -/
def notify_count (ops : List CpufreqOp) (state cpu : Nat) : Nat :=
  ops.countP fun op =>
    match op with
    | CpufreqOp.cpufreq_notify_transition f st => decide (f.cpu = cpu ∧ st = state)
    | _ => false

/-- The calls `ops` contain no transition notification and no `clk_set_rate`. -/
def log_quiet (ops : List CpufreqOp) : Prop :=
  (∀ f st, CpufreqOp.cpufreq_notify_transition f st ∉ ops) ∧
  (∀ rate, CpufreqOp.clk_set_rate rate ∉ ops)

/-- The calls `ops` are: quiet calls, one `CPUFREQ_PRECHANGE` per affected CPU, the
`clk_set_rate` call, quiet calls, one `CPUFREQ_POSTCHANGE` per affected CPU, in this
order. -/
def log_paired (affected : List Nat) (ops : List CpufreqOp) : Prop :=
  ∃ before mid old new new2 rate,
    ops = before ++
      ((affected.map fun i => CpufreqOp.cpufreq_notify_transition
        { cpu := i, old := old, new := new } CPUFREQ_PRECHANGE) ++
      ([CpufreqOp.clk_set_rate rate] ++ (mid ++
      (affected.map fun i => CpufreqOp.cpufreq_notify_transition
        { cpu := i, old := old, new := new2 } CPUFREQ_POSTCHANGE)))) ∧
    log_quiet before ∧ log_quiet mid

/-! ## Concrete configurations used by the witnesses and counterexamples -/

/-- A sensor with both board callbacks, closed and unpowered. -/
def sensor_idle : mt9p031 :=
  { rect := { left := 16, top := 54, width := 2751, height := 2003 },
    format := { width := 2751, height := 2003, code := 0, field := 1, colorspace := 8 },
    pdata := { set_xclk := true, reset := true, vdd_io := 0, version := 0 },
    power_count := 0, xskip := 1, yskip := 1, output_control := 0,
    bus := [], log := [], powered := false, warnings := 0 }

/-- A file handle whose try state is the sensor default on every pad. -/
def fh_idle : v4l2_subdev_fh :=
  { try_fmt := fun _ => { width := 2751, height := 2003, code := 0, field := 1, colorspace := 8 },
    try_crop := fun _ => { left := 16, top := 54, width := 2751, height := 2003 } }

/-- A request for the sensor's default window on the active configuration. -/
def crop_full : v4l2_subdev_crop :=
  { which := V4L2_SUBDEV_FORMAT_ACTIVE, pad := 0,
    rect := { left := 16, top := 54, width := 2751, height := 2003 } }

/-- A panel that has not been enabled yet. -/
def panel_off : omap_dss_device :=
  { state := omap_dss_display_state.OMAP_DSS_DISPLAY_DISABLED, log := [] }

/-- A uniprocessor OMAP3 without a frequency table: the clock rounds every request to
itself, accepts every rate, and `cpufreq_scale` is the kernel's `old * mult / div`. -/
def platform_up : omap_platform :=
  { is_smp := false, CONFIG_SMP := false, NR_CPUS := 1, num_online_cpus := 1,
    freq_table := none,
    cpufreq_frequency_table_target := fun _ _ _ _ => (0, 0),
    clk_round_rate := fun rate => (rate : Int),
    clk_set_rate := fun _ rate => (0, rate),
    cpufreq_scale := fun old div mult => old * mult / div }

/-- A dual-core OMAP4 on which only one CPU has come online. -/
def platform_smp_booting : omap_platform :=
  { is_smp := true, CONFIG_SMP := true, NR_CPUS := 2, num_online_cpus := 1,
    freq_table := some [300000, 600000, 800000, 1008000],
    cpufreq_frequency_table_target := fun _ _ _ _ => (0, 2),
    clk_round_rate := fun rate => (rate : Int),
    clk_set_rate := fun _ rate => (0, rate),
    cpufreq_scale := fun old div mult => old * mult / div }

/-- An MPU clock running at 600 MHz, nothing logged. -/
def cpufreq_600 : omap_cpufreq :=
  { mpu_clk_rate := 600000000, loops_per_jiffy := 4000000,
    cpu_data_loops_per_jiffy := fun _ => 4000000, log := [] }

/-- A policy whose limits are both 4294968 kHz. -/
def policy_wide : cpufreq_policy :=
  { cpu := 0, min := 4294968, max := 4294968, cpus := [0] }

/-- A policy spanning 300 MHz to 600 MHz. -/
def policy_omap3 : cpufreq_policy :=
  { cpu := 0, min := 300000, max := 600000, cpus := [0] }

/-- A board before revision detection. -/
def beagle_boot : beagle_board := { omap3_beagle_version := 0, log := [] }

/-- The gpiolib of a BeagleBoard-xM rev C: every request succeeds, the pins read 0 1 0. -/
def gpio_xmc : beagle_gpio :=
  { gpio_request := fun _ => 0,
    gpio_get_value := fun gpio => if gpio = 172 then 1 else 0 }

/-- A gpiolib on which GPIO 173 is already taken (`-EBUSY`). -/
def gpio_173_busy : beagle_gpio :=
  { gpio_request := fun gpio => if gpio = 173 then -16 else 0,
    gpio_get_value := fun _ => 1 }

/-- A request for a 640 x 480 output on the active configuration. -/
def format_vga : v4l2_subdev_format :=
  { which := V4L2_SUBDEV_FORMAT_ACTIVE, pad := 0,
    format := { width := 640, height := 480, code := 0, field := 1, colorspace := 8 } }

/-- A dual-core OMAP4 with both CPUs online whose clock refuses every rate change
(`-EINVAL`) and keeps its rate. -/
def platform_smp_stuck : omap_platform :=
  { is_smp := true, CONFIG_SMP := true, NR_CPUS := 2, num_online_cpus := 2,
    freq_table := some [300000, 600000, 800000, 1008000],
    cpufreq_frequency_table_target := fun _ _ _ _ => (0, 2),
    clk_round_rate := fun rate => (rate : Int),
    clk_set_rate := fun cur _ => (-22, cur),
    cpufreq_scale := fun old div mult => old * mult / div }

/-- A policy covering both CPUs of a dual-core platform. -/
def policy_omap4 : cpufreq_policy :=
  { cpu := 0, min := 300000, max := 1008000, cpus := [0, 1] }

/-! ### Field lemmas for the power sequences -/

theorem emit_if_fields (c : Bool) (s : mt9p031) (ops : List HwOp) :
    (if c then s.emit ops else s).power_count = s.power_count ∧
    (if c then s.emit ops else s).warnings = s.warnings ∧
    (if c then s.emit ops else s).powered = s.powered ∧
    (if c then s.emit ops else s).pdata = s.pdata := by
  cases c <;> simp [mt9p031.emit]

theorem reg_write_fields (s : mt9p031) (reg data : Nat) :
    (reg_write s reg data).2.power_count = s.power_count ∧
    (reg_write s reg data).2.warnings = s.warnings ∧
    (reg_write s reg data).2.powered = s.powered := by
  simp [reg_write]

theorem set_output_control_fields (s : mt9p031) (clear set : Nat) :
    (mt9p031_set_output_control s clear set).2.power_count = s.power_count ∧
    (mt9p031_set_output_control s clear set).2.warnings = s.warnings ∧
    (mt9p031_set_output_control s clear set).2.powered = s.powered := by
  unfold mt9p031_set_output_control
  simp only []
  split <;> simp [reg_write]

theorem reset_fields (s : mt9p031) :
    (mt9p031_reset s).2.power_count = s.power_count ∧
    (mt9p031_reset s).2.warnings = s.warnings ∧
    (mt9p031_reset s).2.powered = s.powered := by
  unfold mt9p031_reset
  simp only []
  split
  · simp [reg_write]
  · split
    · simp [reg_write]
    · have h := set_output_control_fields
        (reg_write (reg_write s MT9P031_RST MT9P031_RST_ENABLE).2 MT9P031_RST
          MT9P031_RST_DISABLE).2 MT9P031_OUTPUT_CONTROL_CEN 0
      simpa [reg_write] using h

theorem ite_pair_snd (p : Int × mt9p031) :
    (if p.1 < 0 then (p.1, p.2) else ((0 : Int), p.2)).2 = p.2 := by
  split <;> rfl

theorem power_on_fields (s : mt9p031) :
    (mt9p031_power_on s).2.power_count = s.power_count ∧
    (mt9p031_power_on s).2.warnings = s.warnings ∧
    (mt9p031_power_on s).2.powered = true := by
  unfold mt9p031_power_on
  simp only [ite_pair_snd]
  refine ⟨?_, ?_, ?_⟩
  · rw [(reset_fields _).1]
    simp only [(emit_if_fields _ _ _).1]
  · rw [(reset_fields _).2.1]
    simp only [(emit_if_fields _ _ _).2.1]
  · rw [(reset_fields _).2.2]

theorem power_off_fields (s : mt9p031) :
    (mt9p031_power_off s).power_count = s.power_count ∧
    (mt9p031_power_off s).warnings = s.warnings ∧
    (mt9p031_power_off s).powered = false := by
  unfold mt9p031_power_off
  simp only [(emit_if_fields _ _ _).1, (emit_if_fields _ _ _).2.1]
  exact ⟨trivial, trivial, trivial⟩

/-! ### `mt9p031_set_power` -/

theorem update_power_count_some (s : mt9p031) (on_ : Int) (r : Int × mt9p031)
    (h : mt9p031_update_power_count s on_ = some r) :
    r.1 = 0 ∧ r.2.power_count = s.power_count + (if on_ ≠ 0 then 1 else -1) ∧
    r.2.hw = s.hw ∧
    r.2.warnings = (if r.2.power_count < 0 then s.warnings + 1 else s.warnings) := by
  unfold mt9p031_update_power_count s32_add s32_chk at h
  by_cases hr : INT_MIN ≤ s.power_count + (if on_ ≠ 0 then 1 else -1) ∧
      s.power_count + (if on_ ≠ 0 then 1 else -1) ≤ INT_MAX
  · rw [if_pos hr] at h
    simp only [Option.some.injEq] at h
    subst h
    simp [mt9p031.hw]
  · rw [if_neg hr] at h
    exact absurd h (by simp)

theorem update_power_count_defined (s : mt9p031) (on_ : Int)
    (h : INT_MIN < s.power_count ∧ s.power_count < INT_MAX) :
    ∃ r, mt9p031_update_power_count s on_ = some r := by
  unfold mt9p031_update_power_count s32_add s32_chk
  have hr : INT_MIN ≤ s.power_count + (if on_ ≠ 0 then 1 else -1) ∧
      s.power_count + (if on_ ≠ 0 then 1 else -1) ≤ INT_MAX := by
    obtain ⟨h1, h2⟩ := h
    split <;> constructor <;> omega
  rw [if_pos hr]
  exact ⟨_, rfl⟩

theorem set_power_defined (s : mt9p031) (on_ : Int)
    (h : INT_MIN < s.power_count ∧ s.power_count < INT_MAX) :
    ∃ r, mt9p031_set_power s on_ = some r := by
  unfold mt9p031_set_power
  split
  · split
    · simp only []
      split
      · exact ⟨_, rfl⟩
      · apply update_power_count_defined
        rw [(power_on_fields s).1]
        exact h
    · apply update_power_count_defined
      rw [(power_off_fields s).1]
      exact h
  · exact update_power_count_defined s on_ h

/-- The three ways a call of `mt9p031_set_power` can go. -/
theorem set_power_cases (s : mt9p031) (on_ : Int) :
    (on_ ≠ 0 ∧ s.power_count = 0 ∧
      mt9p031_set_power s on_ =
        (if (mt9p031_power_on s).1 ≠ 0 then some ((mt9p031_power_on s).1, (mt9p031_power_on s).2)
         else mt9p031_update_power_count (mt9p031_power_on s).2 on_)) ∨
    (on_ = 0 ∧ s.power_count = 1 ∧
      mt9p031_set_power s on_ = mt9p031_update_power_count (mt9p031_power_off s) on_) ∨
    (¬ (on_ ≠ 0 ∧ s.power_count = 0) ∧ ¬ (on_ = 0 ∧ s.power_count = 1) ∧
      mt9p031_set_power s on_ = mt9p031_update_power_count s on_) := by
  unfold mt9p031_set_power c_not
  by_cases hon : on_ = 0
  · by_cases hpc : s.power_count = 1
    · right; left
      simp [hon, hpc]
    · right; right
      simp [hon, hpc]
  · by_cases hpc : s.power_count = 0
    · left
      simp [hon, hpc]
    · right; right
      simp [hon, hpc]

/-- The hardware state after a returning call of `mt9p031_set_power`. -/
theorem set_power_hw (s : mt9p031) (on_ : Int) (r : Int × mt9p031)
    (hr : mt9p031_set_power s on_ = some r) :
    r.2.hw =
      if on_ ≠ 0 ∧ s.power_count = 0 then (mt9p031_power_on s).2.hw
      else if on_ = 0 ∧ s.power_count = 1 then (mt9p031_power_off s).hw
      else s.hw := by
  rcases set_power_cases s on_ with ⟨hon, hpc, heq⟩ | ⟨hon, hpc, heq⟩ | ⟨h1, h2, heq⟩
  · rw [heq] at hr
    rw [if_pos ⟨hon, hpc⟩]
    split at hr
    · simp only [Option.some.injEq] at hr
      rw [← hr]
    · exact (update_power_count_some _ _ _ hr).2.2.1
  · rw [heq] at hr
    have hne : ¬ (on_ ≠ 0 ∧ s.power_count = 0) := fun h => h.1 hon
    rw [if_neg hne, if_pos ⟨hon, hpc⟩]
    exact (update_power_count_some _ _ _ hr).2.2.1
  · rw [heq] at hr
    rw [if_neg h1, if_neg h2]
    exact (update_power_count_some _ _ _ hr).2.2.1

/-- C1: `mt9p031_set_power` runs the power-on sequence exactly when `on` is non-zero and
`power_count` is 0, the power-off sequence exactly when `on` is zero and `power_count` is 1,
and otherwise leaves the hardware (bus, operation log, cached register, power state) as it
was.  The call returns for every state whose count can be incremented and decremented. -/
theorem mt9p031_set_power_transitions (s : mt9p031) (on_ : Int) :
    (∀ r, mt9p031_set_power s on_ = some r →
      r.2.hw =
        if on_ ≠ 0 ∧ s.power_count = 0 then (mt9p031_power_on s).2.hw
        else if on_ = 0 ∧ s.power_count = 1 then (mt9p031_power_off s).hw
        else s.hw) ∧
    (INT_MIN < s.power_count ∧ s.power_count < INT_MAX →
      ∃ r, mt9p031_set_power s on_ = some r) := by
  refine ⟨?_, set_power_defined s on_⟩
  intro r hr
  rcases set_power_cases s on_ with ⟨hon, hpc, heq⟩ | ⟨hon, hpc, heq⟩ | ⟨h1, h2, heq⟩
  · rw [heq] at hr
    rw [if_pos ⟨hon, hpc⟩]
    split at hr
    · simp only [Option.some.injEq] at hr
      rw [← hr]
    · exact (update_power_count_some _ _ _ hr).2.2.1
  · rw [heq] at hr
    have hne : ¬ (on_ ≠ 0 ∧ s.power_count = 0) := fun h => h.1 hon
    rw [if_neg hne, if_pos ⟨hon, hpc⟩]
    exact (update_power_count_some _ _ _ hr).2.2.1
  · rw [heq] at hr
    rw [if_neg h1, if_neg h2]
    exact (update_power_count_some _ _ _ hr).2.2.1

/-- Witness for C1: opening an idle sensor runs the power-on sequence. -/
theorem mt9p031_set_power_transitions_witness :
    ∃ r, mt9p031_set_power sensor_idle 1 = some r ∧
      r.2.hw = (mt9p031_power_on sensor_idle).2.hw := by
  obtain ⟨r, hr⟩ := (mt9p031_set_power_transitions sensor_idle 1).2 (by decide)
  refine ⟨r, hr, ?_⟩
  have h := (mt9p031_set_power_transitions sensor_idle 1).1 r hr
  rw [if_pos (by decide)] at h
  exact h

/-- The return code and the count after a returning call of `mt9p031_set_power`. -/
theorem set_power_count (s : mt9p031) (on_ : Int) (r : Int × mt9p031)
    (hr : mt9p031_set_power s on_ = some r) :
    if on_ ≠ 0 ∧ s.power_count = 0 ∧ (mt9p031_power_on s).1 ≠ 0 then
      r.1 = (mt9p031_power_on s).1 ∧ r.1 ≠ 0 ∧ r.2.power_count = s.power_count
    else
      r.1 = 0 ∧ r.2.power_count = s.power_count + (if on_ ≠ 0 then 1 else -1) := by
  rcases set_power_cases s on_ with ⟨hon, hpc, heq⟩ | ⟨hon, hpc, heq⟩ | ⟨h1, h2, heq⟩
  · rw [heq] at hr
    by_cases hf : (mt9p031_power_on s).1 ≠ 0
    · rw [if_pos hf] at hr
      rw [if_pos ⟨hon, hpc, hf⟩]
      simp only [Option.some.injEq] at hr
      rw [← hr]
      exact ⟨rfl, hf, (power_on_fields s).1⟩
    · rw [if_neg hf] at hr
      rw [if_neg (fun h => hf h.2.2)]
      have h := update_power_count_some _ _ _ hr
      rw [(power_on_fields s).1] at h
      exact ⟨h.1, h.2.1⟩
  · rw [heq] at hr
    rw [if_neg (fun h => h.1 hon)]
    have h := update_power_count_some _ _ _ hr
    rw [(power_off_fields s).1] at h
    exact ⟨h.1, h.2.1⟩
  · rw [heq] at hr
    rw [if_neg (fun h => h1 ⟨h.1, h.2.1⟩)]
    have h := update_power_count_some _ _ _ hr
    exact ⟨h.1, h.2.1⟩

/-- C3: when the power-on sequence fails inside `mt9p031_set_power` the call returns its error
code and `power_count` is unchanged; every other call returns 0 and has moved `power_count`
by exactly +1 (`on` non-zero) or -1 (`on` zero).  The call returns for every state whose
count can be incremented and decremented. -/
theorem mt9p031_set_power_result (s : mt9p031) (on_ : Int) :
    (∀ r, mt9p031_set_power s on_ = some r →
      if on_ ≠ 0 ∧ s.power_count = 0 ∧ (mt9p031_power_on s).1 ≠ 0 then
        r.1 = (mt9p031_power_on s).1 ∧ r.1 ≠ 0 ∧ r.2.power_count = s.power_count
      else
        r.1 = 0 ∧ r.2.power_count = s.power_count + (if on_ ≠ 0 then 1 else -1)) ∧
    (INT_MIN < s.power_count ∧ s.power_count < INT_MAX →
      ∃ r, mt9p031_set_power s on_ = some r) := by
  refine ⟨?_, set_power_defined s on_⟩
  intro r hr
  rcases set_power_cases s on_ with ⟨hon, hpc, heq⟩ | ⟨hon, hpc, heq⟩ | ⟨h1, h2, heq⟩
  · rw [heq] at hr
    by_cases hf : (mt9p031_power_on s).1 ≠ 0
    · rw [if_pos hf] at hr
      rw [if_pos ⟨hon, hpc, hf⟩]
      simp only [Option.some.injEq] at hr
      rw [← hr]
      exact ⟨rfl, hf, (power_on_fields s).1⟩
    · rw [if_neg hf] at hr
      rw [if_neg (fun h => hf h.2.2)]
      have h := update_power_count_some _ _ _ hr
      rw [(power_on_fields s).1] at h
      exact ⟨h.1, h.2.1⟩
  · rw [heq] at hr
    rw [if_neg (fun h => h.1 hon)]
    have h := update_power_count_some _ _ _ hr
    rw [(power_off_fields s).1] at h
    exact ⟨h.1, h.2.1⟩
  · rw [heq] at hr
    rw [if_neg (fun h => h1 ⟨h.1, h.2.1⟩)]
    have h := update_power_count_some _ _ _ hr
    exact ⟨h.1, h.2.1⟩

/-- Witness for C3: opening an idle sensor whose bus answers every write returns 0 and
moves the count from 0 to 1. -/
theorem mt9p031_set_power_result_witness :
    ∃ r, mt9p031_set_power sensor_idle 1 = some r ∧ r.1 = 0 ∧ r.2.power_count = 1 := by
  obtain ⟨r, hr⟩ := (mt9p031_set_power_result sensor_idle 1).2 (by decide)
  refine ⟨r, hr, ?_⟩
  have h := (mt9p031_set_power_result sensor_idle 1).1 r hr
  rw [if_neg (by decide)] at h
  exact h

theorem hw_powered (a b : mt9p031) (h : a.hw = b.hw) : a.powered = b.powered := by
  unfold mt9p031.hw at h
  simp only [Prod.mk.injEq] at h
  exact h.2.2.2

/-- One successful call from a consistent state keeps the state consistent. -/
theorem set_power_step (s : mt9p031) (on_ : Int) (r : Int × mt9p031)
    (hr : mt9p031_set_power s on_ = some r) (hok : r.1 = 0)
    (hpc : 0 ≤ s.power_count) (hpow : s.powered = true ↔ 0 < s.power_count)
    (hbal : ¬ (on_ = 0 ∧ s.power_count = 0)) :
    r.2.power_count = s.power_count + (if on_ ≠ 0 then 1 else -1) ∧
    0 ≤ r.2.power_count ∧ r.2.warnings = s.warnings ∧
    (r.2.powered = true ↔ 0 < r.2.power_count) := by
  have hcnt := set_power_count s on_ r hr
  have hhw := set_power_hw s on_ r hr
  rcases set_power_cases s on_ with ⟨hon, hz, heq⟩ | ⟨hon, hz, heq⟩ | ⟨h1, h2, heq⟩
  · by_cases hf : (mt9p031_power_on s).1 ≠ 0
    · rw [if_pos ⟨hon, hz, hf⟩] at hcnt
      exact absurd hok hcnt.2.1
    · rw [if_neg (fun h => hf h.2.2)] at hcnt
      rw [heq, if_neg hf] at hr
      have hu := update_power_count_some _ _ _ hr
      rw [if_pos ⟨hon, hz⟩] at hhw
      have hp := hw_powered _ _ hhw
      rw [(power_on_fields s).2.2] at hp
      have hv : r.2.power_count = 1 := by rw [hcnt.2, hz, if_pos hon]; rfl
      refine ⟨hcnt.2, by omega, ?_, ?_⟩
      · rw [hu.2.2.2, if_neg (by omega), (power_on_fields s).2.1]
      · rw [hp, hv]; simp
  · rw [if_neg (fun h => h.1 hon)] at hcnt
    rw [heq] at hr
    have hu := update_power_count_some _ _ _ hr
    rw [if_neg (fun h => h.1 hon), if_pos ⟨hon, hz⟩] at hhw
    have hp := hw_powered _ _ hhw
    rw [(power_off_fields s).2.2] at hp
    have hv : r.2.power_count = 0 := by
      rw [hcnt.2, hz, if_neg (fun h => h hon)]; rfl
    refine ⟨hcnt.2, by omega, ?_, ?_⟩
    · rw [hu.2.2.2, if_neg (by omega), (power_off_fields s).2.1]
    · rw [hp, hv]; simp
  · rw [if_neg (fun h => h1 ⟨h.1, h.2.1⟩)] at hcnt
    rw [heq] at hr
    have hu := update_power_count_some _ _ _ hr
    rw [if_neg h1, if_neg h2] at hhw
    have hp := hw_powered _ _ hhw
    have hv : 0 < r.2.power_count := by
      rw [hcnt.2]
      by_cases hon : on_ = 0
      · rw [if_neg (fun h => h hon)]
        have a1 : s.power_count ≠ 1 := fun h => h2 ⟨hon, h⟩
        have a0 : s.power_count ≠ 0 := fun h => hbal ⟨hon, h⟩
        omega
      · rw [if_pos hon]
        omega
    have hs : 0 < s.power_count := by
      by_cases hon : on_ = 0
      · have a0 : s.power_count ≠ 0 := fun h => hbal ⟨hon, h⟩
        omega
      · have a0 : s.power_count ≠ 0 := fun h => h1 ⟨hon, h⟩
        omega
    refine ⟨hcnt.2, by omega, ?_, ?_⟩
    · rw [hu.2.2.2, if_neg (by omega)]
    · rw [hp]
      constructor
      · intro _; exact hv
      · intro _; exact hpow.2 hs

theorem on_calls_cons (a : Int) (l : List Int) :
    (on_calls (a :: l) : Int) = on_calls l + (if a ≠ 0 then 1 else 0) := by
  unfold on_calls
  rw [List.countP_cons]
  by_cases h : a = 0 <;> simp [h]

theorem off_calls_cons (a : Int) (l : List Int) :
    (off_calls (a :: l) : Int) = off_calls l + (if a ≠ 0 then 0 else 1) := by
  unfold off_calls
  rw [List.countP_cons]
  by_cases h : a = 0 <;> simp [h]

/-- The invariant of a balanced, failure-free call sequence, from any consistent state. -/
theorem set_power_calls_inv (calls : List Int) :
    ∀ (s : mt9p031) (rets : List Int) (s2 : mt9p031),
      set_power_calls s calls = some (rets, s2) → (∀ r ∈ rets, r = 0) →
      0 ≤ s.power_count → (s.powered = true ↔ 0 < s.power_count) →
      (∀ k, k ≤ calls.length →
        (off_calls (calls.take k) : Int) ≤ s.power_count + on_calls (calls.take k)) →
      s2.power_count = s.power_count + on_calls calls - off_calls calls ∧
      0 ≤ s2.power_count ∧ s2.warnings = s.warnings ∧
      (s2.powered = true ↔ 0 < s2.power_count) := by
  induction calls with
  | nil =>
    intro s rets s2 hrun _ hpc hpow _
    simp only [set_power_calls, Option.some.injEq, Prod.mk.injEq] at hrun
    obtain ⟨_, rfl⟩ := hrun
    simp [on_calls, off_calls, hpc, hpow]
  | cons a rest ih =>
    intro s rets s2 hrun hok hpc hpow hbal
    simp only [set_power_calls] at hrun
    cases h1 : mt9p031_set_power s a with
    | none => rw [h1] at hrun; exact absurd hrun (by simp)
    | some r =>
      rw [h1] at hrun
      simp only [] at hrun
      cases h2 : set_power_calls r.2 rest with
      | none => rw [h2] at hrun; exact absurd hrun (by simp)
      | some q =>
        rw [h2] at hrun
        simp only [Option.some.injEq, Prod.mk.injEq] at hrun
        obtain ⟨hrets, hs2⟩ := hrun
        have hr0 : r.1 = 0 := hok r.1 (by rw [← hrets]; simp)
        have hb1 := hbal 1 (by simp)
        simp only [List.take_succ_cons, List.take_zero] at hb1
        rw [on_calls_cons, off_calls_cons] at hb1
        have hnb : ¬ (a = 0 ∧ s.power_count = 0) := by
          rintro ⟨ha, hz⟩
          simp [ha, hz, on_calls, off_calls] at hb1
        obtain ⟨e1, e2, e3, e4⟩ := set_power_step s a r h1 hr0 hpc hpow hnb
        have hrest := ih r.2 q.1 q.2 (by rw [h2]) (fun x hx => hok x (by rw [← hrets]; simp [hx]))
          e2 e4 (by
            intro k hk
            have hb := hbal (k + 1) (by simp; omega)
            simp only [List.take_succ_cons] at hb
            rw [on_calls_cons, off_calls_cons] at hb
            rw [e1]
            by_cases ha : a = 0 <;> simp [ha] at hb ⊢ <;> omega)
        rw [← hs2]
        obtain ⟨f1, f2, f3, f4⟩ := hrest
        refine ⟨?_, f2, by rw [f3, e3], f4⟩
        rw [f1, e1, on_calls_cons, off_calls_cons]
        by_cases ha : a = 0 <;> simp [ha] <;> omega

theorem set_power_calls_defined (calls : List Int) :
    ∀ s : mt9p031, INT_MIN + calls.length < s.power_count →
      s.power_count + calls.length < INT_MAX →
      ∃ res, set_power_calls s calls = some res := by
  induction calls with
  | nil => intro s _ _; exact ⟨_, rfl⟩
  | cons a rest ih =>
    intro s hlo hhi
    simp only [List.length_cons, Nat.cast_add, Nat.cast_one] at hlo hhi
    obtain ⟨r, hr⟩ := set_power_defined s a ⟨by omega, by omega⟩
    have hcnt := set_power_count s a r hr
    have hd : s.power_count - 1 ≤ r.2.power_count ∧ r.2.power_count ≤ s.power_count + 1 := by
      split at hcnt
      · rw [hcnt.2.2]; omega
      · rw [hcnt.2]; split <;> omega
    obtain ⟨q, hq⟩ := ih r.2 (by omega) (by omega)
    refine ⟨(r.1 :: q.1, q.2), ?_⟩
    simp only [set_power_calls, hr, hq]

/-- C2: from `power_count = 0` with the sensor unpowered, after any sequence of
`mt9p031_set_power` calls of which every one returned 0 (every power-on succeeded) and no
leading part of which has more off calls than on calls, `power_count` is the number of on
calls minus the number of off calls, it is not negative and `WARN_ON` never fired, and the
sensor is powered exactly when `power_count > 0`.  Sequences shorter than `INT_MAX` calls
always run to completion. -/
theorem mt9p031_power_count_balanced (s0 : mt9p031) (calls : List Int)
    (h0 : s0.power_count = 0) (hp : s0.powered = false)
    (hbal : ∀ k, k ≤ calls.length → off_calls (calls.take k) ≤ on_calls (calls.take k)) :
    (∀ rets s, set_power_calls s0 calls = some (rets, s) → (∀ r ∈ rets, r = 0) →
      s.power_count = (on_calls calls : Int) - (off_calls calls : Int) ∧
      0 ≤ s.power_count ∧ s.warnings = s0.warnings ∧
      (s.powered = true ↔ 0 < s.power_count)) ∧
    (calls.length < 2147483647 → ∃ res, set_power_calls s0 calls = some res) := by
  constructor
  · intro rets s hrun hok
    have h := set_power_calls_inv calls s0 rets s hrun hok (by omega) (by simp [h0, hp])
      (by
        intro k hk
        have := hbal k hk
        rw [h0]
        omega)
    rw [h0] at h
    simpa using h
  · intro hlen
    apply set_power_calls_defined
    · rw [h0]; unfold INT_MIN; omega
    · rw [h0]; unfold INT_MAX; omega

/-- Witness for C2: open, open, close on an idle sensor leaves a count of 1, powered. -/
theorem mt9p031_power_count_balanced_witness :
    ∃ rets s, set_power_calls sensor_idle [1, 1, 0] = some (rets, s) ∧
      s.power_count = 1 ∧ s.warnings = 0 ∧ s.powered = true := by
  have hthm := mt9p031_power_count_balanced sensor_idle [1, 1, 0] rfl rfl (by decide)
  obtain ⟨res, hres⟩ := hthm.2 (by decide)
  have hrets : res.1 = [0, 0, 0] := by
    have : set_power_calls sensor_idle [1, 1, 0] = some ([0, 0, 0], res.2) := by
      rw [hres]
      have h2 : (set_power_calls sensor_idle [1, 1, 0]).map Prod.fst = some [0, 0, 0] := by
        decide
      rw [hres] at h2
      simp only [Option.map_some', Option.some.injEq] at h2
      rw [← h2]
    rw [hres] at this
    simp only [Option.some.injEq] at this
    exact congrArg Prod.fst this
  have h := hthm.1 res.1 res.2 hres (by rw [hrets]; decide)
  refine ⟨res.1, res.2, hres, ?_, h.2.2.1, ?_⟩
  · rw [h.1]; decide
  · rw [h.2.2.2, h.1]; decide

/-! ### `mt9p031_set_crop` -/

theorem ldiff_zero_right (k : Nat) : Nat.ldiff k 0 = k := by
  apply Nat.eq_of_testBit_eq
  intro i
  simp [Nat.testBit_ldiff]

theorem ldiff_one (m : Nat) : Nat.ldiff m 1 = 2 * (m / 2) := by
  apply Nat.eq_of_testBit_eq
  intro i
  rw [Nat.testBit_ldiff]
  cases i with
  | zero => simp [Nat.testBit_zero]
  | succ j =>
    have h1 : Nat.testBit 1 (j + 1) = false := by
      simp [Nat.testBit_succ]
    rw [h1]
    simp [Nat.testBit_succ]

theorem land_lnot_one (m : Nat) :
    Int.land (m : Int) (Int.lnot 1) = ((2 * (m / 2) : Nat) : Int) := by
  show Int.land (Int.ofNat m) (Int.negSucc 1) = _
  simp only [Int.land]
  rw [ldiff_one]

/-- On a non-negative value `ALIGN(x, 2)` rounds up to the next even number. -/
theorem ALIGN_two (c : Int) (h : 0 ≤ c) : ALIGN c 2 = 2 * ((c + 1) / 2) := by
  unfold ALIGN
  obtain ⟨n, hn⟩ := Int.eq_ofNat_of_zero_le (by omega : 0 ≤ c + 1)
  have e : c + (2 - 1) = (n : Int) := by omega
  rw [e, show ((2 : Int) - 1) = 1 by norm_num, land_lnot_one, hn]
  push_cast
  rfl

theorem clamp_bounds (val lo hi : Int) (h : lo ≤ hi) :
    lo ≤ clamp val lo hi ∧ clamp val lo hi ≤ hi := by
  unfold clamp
  simp only []
  split <;> split <;> constructor <;> omega

/-- What clamping and aligning does to one coordinate whose lower limit is positive. -/
theorem ALIGN_clamp (val lo hi : Int) (h0 : 0 ≤ lo) (h : lo ≤ hi) :
    ALIGN (clamp val lo hi) 2 % 2 = 0 ∧
    lo ≤ ALIGN (clamp val lo hi) 2 ∧ ALIGN (clamp val lo hi) 2 ≤ hi + 1 ∧
    (hi % 2 = 0 → ALIGN (clamp val lo hi) 2 ≤ hi) ∧
    (lo % 2 = 1 → lo + 1 ≤ ALIGN (clamp val lo hi) 2) := by
  obtain ⟨h1, h2⟩ := clamp_bounds val lo hi h
  rw [ALIGN_two _ (by omega)]
  refine ⟨by omega, by omega, by omega, ?_, ?_⟩ <;> intro _ <;> omega

theorem s32_chk_some (r : Int) (h1 : INT_MIN ≤ r) (h2 : r ≤ INT_MAX) : s32_chk r = some r := by
  unfold s32_chk
  rw [if_pos ⟨h1, h2⟩]

/-- Signed division of a non-negative `int` by a positive one is defined and is the floor. -/
theorem s32_div_pos (a b : Int) (ha : 0 ≤ a) (ha2 : a ≤ INT_MAX) (hb : 0 < b) :
    s32_div a b = some (a / b) := by
  unfold s32_div
  rw [if_neg (by omega), Int.tdiv_eq_ediv ha (by omega)]
  have h1 : 0 ≤ a / b := Int.ediv_nonneg ha (by omega)
  have h2 : a / b ≤ a := Int.ediv_le_self b ha
  apply s32_chk_some
  · unfold INT_MIN; omega
  · omega

theorem to_u32_small (c : Int) (h0 : 0 ≤ c) (h1 : c < 4294967296) : to_u32 c = c.toNat := by
  unfold to_u32
  rw [Int.emod_eq_of_lt h0 h1]

/-- With a positive source of at most 2^30 and positive target and limit, no step of
`mt9p031_skip_for_crop` is undefined. -/
theorem skip_for_crop_defined (source target max_skip : Int)
    (hs : 1 ≤ source) (hs2 : source ≤ 1073741824)
    (ht : 1 ≤ target) (ht2 : target ≤ INT_MAX)
    (hm : 1 ≤ max_skip) (hm2 : max_skip ≤ INT_MAX) :
    ∃ r, mt9p031_skip_for_crop source target max_skip = some r := by
  unfold INT_MAX at ht2 hm2
  unfold mt9p031_skip_for_crop
  rw [s32_div_pos source 4 (by omega) (by unfold INT_MAX; omega) (by omega)]
  simp only [Option.some_bind]
  unfold s32_sub
  rw [s32_chk_some _ (by unfold INT_MIN; omega) (by unfold INT_MAX; omega)]
  simp only [Option.some_bind]
  by_cases hd : source - source / 4 < target
  · rw [if_pos hd]
    exact ⟨_, rfl⟩
  · rw [if_neg hd]
    unfold DIV_ROUND_CLOSEST
    rw [s32_div_pos target 2 (by omega) (by unfold INT_MAX; omega) (by omega)]
    simp only [Option.some_bind]
    unfold s32_add
    rw [s32_chk_some _ (by unfold INT_MIN; omega) (by unfold INT_MAX; omega)]
    simp only [Option.some_bind]
    rw [s32_div_pos _ target (by omega) (by unfold INT_MAX; omega) (by omega)]
    simp only [Option.some_bind]
    have hc1 : 1 ≤ (source + target / 2) / target := by
      apply Int.le_ediv_of_mul_le (by omega)
      omega
    have hc2 : (source + target / 2) / target ≤ source + target / 2 :=
      Int.ediv_le_self _ (by omega)
    rw [to_u32_small ((source + target / 2) / target) (by omega) (by omega),
      to_u32_small max_skip (by omega) (by omega)]
    have hk : ∀ n k : Nat, 1 ≤ k → k < 2147483648 →
        ∃ r, ((DIV_ROUND_UP n ((2 * k) % 4294967296)).bind fun r =>
          some (to_u16 k, to_s32 ((2 * r) % 4294967296))) = some r := by
      intro n k hk1 hk2
      unfold DIV_ROUND_UP u32_div
      rw [if_neg (by omega)]
      exact ⟨_, rfl⟩
    split
    · exact hk _ max_skip.toNat (by omega) (by omega)
    · exact hk _ ((source + target / 2) / target).toNat (by omega) (by omega)

/-- The rectangle computed from any request: every coordinate is even; the width lies in
[18, 2752], the height in [2, 2004], the left edge in [2, 2750], the top edge in [2, 2004]. -/
theorem set_crop_rect_bounds (req : v4l2_rect) :
    ((mt9p031_set_crop_rect req).width % 2 = 0 ∧ (mt9p031_set_crop_rect req).height % 2 = 0 ∧
     (mt9p031_set_crop_rect req).left % 2 = 0 ∧ (mt9p031_set_crop_rect req).top % 2 = 0) ∧
    (18 ≤ (mt9p031_set_crop_rect req).width ∧ (mt9p031_set_crop_rect req).width ≤ 2752) ∧
    (2 ≤ (mt9p031_set_crop_rect req).height ∧ (mt9p031_set_crop_rect req).height ≤ 2004) ∧
    (2 ≤ (mt9p031_set_crop_rect req).left ∧ (mt9p031_set_crop_rect req).left ≤ 2750) ∧
    (2 ≤ (mt9p031_set_crop_rect req).top ∧ (mt9p031_set_crop_rect req).top ≤ 2004) := by
  have hw := ALIGN_clamp req.width 18 2751 (by decide) (by decide)
  have hh := ALIGN_clamp req.height 2 2003 (by decide) (by decide)
  have hl := ALIGN_clamp req.left 1 2750 (by decide) (by decide)
  have ht := ALIGN_clamp req.top 1 2004 (by decide) (by decide)
  have ew : (mt9p031_set_crop_rect req).width = ALIGN (clamp req.width 18 2751) 2 := rfl
  have eh : (mt9p031_set_crop_rect req).height = ALIGN (clamp req.height 2 2003) 2 := rfl
  have el : (mt9p031_set_crop_rect req).left = ALIGN (clamp req.left 1 2750) 2 := rfl
  have et : (mt9p031_set_crop_rect req).top = ALIGN (clamp req.top 1 2004) 2 := rfl
  rw [ew, eh, el, et]
  have l1 := hl.2.2.2.1 (by decide)
  have l2 := hl.2.2.2.2 (by decide)
  have t1 := ht.2.2.2.1 (by decide)
  have t2 := ht.2.2.2.2 (by decide)
  refine ⟨⟨hw.1, hh.1, hl.1, ht.1⟩, ⟨hw.2.1, hw.2.2.1⟩, ⟨hh.2.1, hh.2.2.1⟩, ⟨?_, l1⟩, ⟨?_, t1⟩⟩
  · omega
  · omega

theorem get_pad_format_eq_crop (pad which : Nat) :
    mt9p031_get_pad_format pad which = mt9p031_get_pad_crop pad which := rfl

theorem get_pad_crop_some (pad which : Nat)
    (h : which = V4L2_SUBDEV_FORMAT_TRY ∨ which = V4L2_SUBDEV_FORMAT_ACTIVE) :
    ∃ c, mt9p031_get_pad_crop pad which = some c := by
  unfold mt9p031_get_pad_crop
  rcases h with h | h
  · rw [if_pos h]; exact ⟨_, rfl⟩
  · by_cases h2 : which = V4L2_SUBDEV_FORMAT_TRY
    · rw [if_pos h2]; exact ⟨_, rfl⟩
    · rw [if_neg h2, if_pos h]; exact ⟨_, rfl⟩

/-- The two ways a returning call of `mt9p031_set_crop` can go. -/
theorem set_crop_some (s : mt9p031) (fh : v4l2_subdev_fh) (crop : v4l2_subdev_crop)
    (r : Int × mt9p031 × v4l2_subdev_fh × v4l2_subdev_crop)
    (h : mt9p031_set_crop s fh crop = some r) :
    ∃ c, mt9p031_get_pad_crop crop.pad crop.which = some c ∧
      mt9p031_get_pad_format crop.pad crop.which = some c ∧
      ((((mt9p031_set_crop_rect crop.rect).width ≠ (load_crop s fh c).width ∨
          (mt9p031_set_crop_rect crop.rect).height ≠ (load_crop s fh c).height) ∧
        ∃ x y,
          mt9p031_skip_for_crop (mt9p031_set_crop_rect crop.rect).width
            (to_s32 (load_format s fh c).width) 7 = some x ∧
          mt9p031_skip_for_crop (mt9p031_set_crop_rect crop.rect).height
            (to_s32 (load_format s fh c).height) 8 = some y ∧
          r = mt9p031_set_crop_commit (store_format_size s fh c (to_u32 x.2) (to_u32 y.2)).1
                (store_format_size s fh c (to_u32 x.2) (to_u32 y.2)).2 crop c
                (mt9p031_set_crop_rect crop.rect) x.1 y.1) ∨
       (¬ ((mt9p031_set_crop_rect crop.rect).width ≠ (load_crop s fh c).width ∨
          (mt9p031_set_crop_rect crop.rect).height ≠ (load_crop s fh c).height) ∧
        r = mt9p031_set_crop_commit s fh crop c (mt9p031_set_crop_rect crop.rect)
              s.xskip s.yskip)) := by
  unfold mt9p031_set_crop at h
  simp only [get_pad_format_eq_crop] at h ⊢
  cases hc : mt9p031_get_pad_crop crop.pad crop.which with
  | none => rw [hc] at h; exact absurd h (by simp)
  | some c =>
    rw [hc] at h
    simp only [] at h
    refine ⟨c, rfl, rfl, ?_⟩
    by_cases hd : (mt9p031_set_crop_rect crop.rect).width ≠ (load_crop s fh c).width ∨
        (mt9p031_set_crop_rect crop.rect).height ≠ (load_crop s fh c).height
    · rw [if_pos hd] at h
      left
      refine ⟨hd, ?_⟩
      cases hx : mt9p031_skip_for_crop (mt9p031_set_crop_rect crop.rect).width
          (to_s32 (load_format s fh c).width) 7 with
      | none => rw [hx] at h; exact absurd h (by simp)
      | some x =>
        rw [hx] at h
        simp only [] at h
        cases hy : mt9p031_skip_for_crop (mt9p031_set_crop_rect crop.rect).height
            (to_s32 (load_format s fh c).height) 8 with
        | none => rw [hy] at h; exact absurd h (by simp)
        | some y =>
          rw [hy] at h
          simp only [Option.some.injEq] at h
          exact ⟨x, y, rfl, rfl, h.symm⟩
    · rw [if_neg hd] at h
      right
      simp only [Option.some.injEq] at h
      exact ⟨hd, h.symm⟩

theorem load_store_crop (s : mt9p031) (fh : v4l2_subdev_fh) (c : PadPtr) (rect : v4l2_rect) :
    load_crop (store_crop s fh c rect).1 (store_crop s fh c rect).2 c = rect := by
  cases c <;> simp [store_crop, load_crop]

/-- What `mt9p031_set_crop` leaves behind: the rectangle is in the selected crop slot, in the
device and in the request, and the return code is 0. -/
theorem set_crop_commit_rect (s : mt9p031) (fh : v4l2_subdev_fh) (crop : v4l2_subdev_crop)
    (c : PadPtr) (rect : v4l2_rect) (xskip yskip : Nat) :
    (mt9p031_set_crop_commit s fh crop c rect xskip yskip).1 = 0 ∧
    (mt9p031_set_crop_commit s fh crop c rect xskip yskip).2.2.2.rect = rect ∧
    (mt9p031_set_crop_commit s fh crop c rect xskip yskip).2.1.rect = rect ∧
    load_crop (mt9p031_set_crop_commit s fh crop c rect xskip yskip).2.1
      (mt9p031_set_crop_commit s fh crop c rect xskip yskip).2.2.1 c = rect := by
  unfold mt9p031_set_crop_commit
  simp only [load_store_crop]
  refine ⟨trivial, trivial, trivial, ?_⟩
  cases c <;> simp [store_crop, load_crop]

theorem set_crop_stored (s : mt9p031) (fh : v4l2_subdev_fh) (crop : v4l2_subdev_crop)
    (r : Int × mt9p031 × v4l2_subdev_fh × v4l2_subdev_crop)
    (h : mt9p031_set_crop s fh crop = some r) :
    r.1 = 0 ∧ r.2.2.2.rect = mt9p031_set_crop_rect crop.rect ∧
    r.2.1.rect = mt9p031_set_crop_rect crop.rect ∧
    ∀ c, mt9p031_get_pad_crop crop.pad crop.which = some c →
      load_crop r.2.1 r.2.2.1 c = mt9p031_set_crop_rect crop.rect := by
  obtain ⟨c, hc, _, hcase⟩ := set_crop_some s fh crop r h
  have key : ∀ s1 fh1 xs ys,
      r = mt9p031_set_crop_commit s1 fh1 crop c (mt9p031_set_crop_rect crop.rect) xs ys →
      r.1 = 0 ∧ r.2.2.2.rect = mt9p031_set_crop_rect crop.rect ∧
      r.2.1.rect = mt9p031_set_crop_rect crop.rect ∧
      ∀ c, mt9p031_get_pad_crop crop.pad crop.which = some c →
        load_crop r.2.1 r.2.2.1 c = mt9p031_set_crop_rect crop.rect := by
    intro s1 fh1 xs ys hr
    have hh := set_crop_commit_rect s1 fh1 crop c (mt9p031_set_crop_rect crop.rect) xs ys
    rw [← hr] at hh
    refine ⟨hh.1, hh.2.1, hh.2.2.1, ?_⟩
    intro c2 hc2
    rw [hc] at hc2
    simp only [Option.some.injEq] at hc2
    rw [← hc2]
    exact hh.2.2.2
  rcases hcase with ⟨hd, x, y, hx, hy, hr⟩ | ⟨hd, hr⟩
  · exact key _ _ _ _ hr
  · exact key _ _ _ _ hr

theorem to_s32_small (n : Nat) (h : n < 2147483648) : to_s32 n = (n : Int) := by
  unfold to_s32
  have e : n % 4294967296 = n := Nat.mod_eq_of_lt (by omega)
  rw [e, if_pos h]

/-- The call returns when `which` is one of the two defined values and the selected pad
format has a positive width and height below 2^31. -/
theorem set_crop_defined (s : mt9p031) (fh : v4l2_subdev_fh) (crop : v4l2_subdev_crop)
    (hw : crop.which = V4L2_SUBDEV_FORMAT_TRY ∨ crop.which = V4L2_SUBDEV_FORMAT_ACTIVE)
    (hf : ∀ f, mt9p031_get_pad_format crop.pad crop.which = some f →
      1 ≤ (load_format s fh f).width ∧ (load_format s fh f).width < 2147483648 ∧
      1 ≤ (load_format s fh f).height ∧ (load_format s fh f).height < 2147483648) :
    ∃ r, mt9p031_set_crop s fh crop = some r := by
  obtain ⟨c, hc⟩ := get_pad_crop_some crop.pad crop.which hw
  obtain ⟨f1, f2, f3, f4⟩ := hf c (by rw [get_pad_format_eq_crop]; exact hc)
  unfold mt9p031_set_crop
  simp only [get_pad_format_eq_crop, hc]
  split
  · have hb := set_crop_rect_bounds crop.rect
    obtain ⟨x, hx⟩ := skip_for_crop_defined (mt9p031_set_crop_rect crop.rect).width
      (to_s32 (load_format s fh c).width) 7
      (by omega) (by omega)
      (by rw [to_s32_small _ f2]; omega) (by rw [to_s32_small _ f2]; unfold INT_MAX; omega)
      (by decide) (by decide)
    obtain ⟨y, hy⟩ := skip_for_crop_defined (mt9p031_set_crop_rect crop.rect).height
      (to_s32 (load_format s fh c).height) 8
      (by omega) (by omega)
      (by rw [to_s32_small _ f4]; omega) (by rw [to_s32_small _ f4]; unfold INT_MAX; omega)
      (by decide) (by decide)
    rw [hx]
    simp only [hy]
    exact ⟨_, rfl⟩
  · exact ⟨_, rfl⟩

/-- C4: whatever rectangle is requested, the rectangle `mt9p031_set_crop` stores (in the
selected crop slot and in the device) and reports back in the request has an even width,
height, left and top.  The call returns whenever `which` is TRY or ACTIVE and the selected
pad format has a positive width and height. -/
theorem mt9p031_set_crop_even (s : mt9p031) (fh : v4l2_subdev_fh) (crop : v4l2_subdev_crop) :
    (∀ r, mt9p031_set_crop s fh crop = some r →
      r.2.1.rect = r.2.2.2.rect ∧
      (∀ c, mt9p031_get_pad_crop crop.pad crop.which = some c →
        load_crop r.2.1 r.2.2.1 c = r.2.2.2.rect) ∧
      r.2.2.2.rect.width % 2 = 0 ∧ r.2.2.2.rect.height % 2 = 0 ∧
      r.2.2.2.rect.left % 2 = 0 ∧ r.2.2.2.rect.top % 2 = 0) ∧
    ((crop.which = V4L2_SUBDEV_FORMAT_TRY ∨ crop.which = V4L2_SUBDEV_FORMAT_ACTIVE) →
      (∀ f, mt9p031_get_pad_format crop.pad crop.which = some f →
        1 ≤ (load_format s fh f).width ∧ (load_format s fh f).width < 2147483648 ∧
        1 ≤ (load_format s fh f).height ∧ (load_format s fh f).height < 2147483648) →
      ∃ r, mt9p031_set_crop s fh crop = some r) := by
  refine ⟨?_, set_crop_defined s fh crop⟩
  intro r hr
  obtain ⟨_, h2, h3, h4⟩ := set_crop_stored s fh crop r hr
  have hb := (set_crop_rect_bounds crop.rect).1
  rw [h2, h3]
  exact ⟨rfl, h4, hb⟩

/-- Witness for C4: the default window requested on the idle sensor. -/
theorem mt9p031_set_crop_even_witness :
    ∃ r, mt9p031_set_crop sensor_idle fh_idle crop_full = some r ∧
      r.2.2.2.rect.width % 2 = 0 ∧ r.2.2.2.rect.height % 2 = 0 ∧
      r.2.2.2.rect.left % 2 = 0 ∧ r.2.2.2.rect.top % 2 = 0 := by
  obtain ⟨r, hr⟩ := (mt9p031_set_crop_even sensor_idle fh_idle crop_full).2
    (Or.inr rfl) (by
      intro f hf
      have e : f = PadPtr.active := by
        have : mt9p031_get_pad_format crop_full.pad crop_full.which = some PadPtr.active := rfl
        rw [this] at hf
        exact (Option.some.inj hf).symm
      subst e
      decide)
  exact ⟨r, hr, ((mt9p031_set_crop_even sensor_idle fh_idle crop_full).1 r hr).2.2⟩

/-- C5, as stated, fails: requesting the default window (2751 x 2003) on the idle sensor
stores and reports 2752 x 2004, above `MT9P031_WINDOW_WIDTH_MAX` = 2751 and
`MT9P031_WINDOW_HEIGHT_MAX` = 2003. -/
theorem mt9p031_set_crop_above_max :
    ∃ r, mt9p031_set_crop sensor_idle fh_idle crop_full = some r ∧
      r.2.1.rect.width = 2752 ∧ r.2.2.2.rect.width = 2752 ∧
      r.2.1.rect.height = 2004 ∧ r.2.2.2.rect.height = 2004 ∧
      ¬ (r.2.2.2.rect.width ≤ MT9P031_WINDOW_WIDTH_MAX) ∧
      ¬ (r.2.2.2.rect.height ≤ MT9P031_WINDOW_HEIGHT_MAX) := by
  obtain ⟨r, hr⟩ := set_crop_defined sensor_idle fh_idle crop_full (Or.inr rfl) (by
      intro f hf
      have e : f = PadPtr.active := by
        have : mt9p031_get_pad_format crop_full.pad crop_full.which = some PadPtr.active := rfl
        rw [this] at hf
        exact (Option.some.inj hf).symm
      subst e
      decide)
  obtain ⟨_, h2, h3, _⟩ := set_crop_stored sensor_idle fh_idle crop_full r hr
  have ew : (mt9p031_set_crop_rect crop_full.rect).width = 2752 := by
    show ALIGN (clamp 2751 18 2751) 2 = 2752
    rw [ALIGN_two _ (by decide)]
    decide
  have eh : (mt9p031_set_crop_rect crop_full.rect).height = 2004 := by
    show ALIGN (clamp 2003 2 2003) 2 = 2004
    rw [ALIGN_two _ (by decide)]
    decide
  refine ⟨r, hr, ?_, ?_, ?_, ?_, ?_, ?_⟩
  · rw [h3, ew]
  · rw [h2, ew]
  · rw [h3, eh]
  · rw [h2, eh]
  · rw [h2, ew]; decide
  · rw [h2, eh]; decide

/-- C5 (amended): the rectangle `mt9p031_set_crop` stores and reports back is the clamped
request rounded up to even, so its width lies in [18, 2752] = [WIDTH_MIN, WIDTH_MAX + 1], its
height in [2, 2004] = [HEIGHT_MIN, HEIGHT_MAX + 1], its left edge in [1, 2750] and its top
edge in [1, 2004].  The call returns whenever `which` is TRY or ACTIVE and the selected pad
format has a positive width and height. -/
theorem mt9p031_set_crop_limits (s : mt9p031) (fh : v4l2_subdev_fh) (crop : v4l2_subdev_crop) :
    (∀ r, mt9p031_set_crop s fh crop = some r →
      r.2.1.rect = r.2.2.2.rect ∧
      (∀ c, mt9p031_get_pad_crop crop.pad crop.which = some c →
        load_crop r.2.1 r.2.2.1 c = r.2.2.2.rect) ∧
      (MT9P031_WINDOW_WIDTH_MIN ≤ r.2.2.2.rect.width ∧
        r.2.2.2.rect.width ≤ MT9P031_WINDOW_WIDTH_MAX + 1) ∧
      (MT9P031_WINDOW_HEIGHT_MIN ≤ r.2.2.2.rect.height ∧
        r.2.2.2.rect.height ≤ MT9P031_WINDOW_HEIGHT_MAX + 1) ∧
      (MT9P031_COLUMN_START_MIN ≤ r.2.2.2.rect.left ∧
        r.2.2.2.rect.left ≤ MT9P031_COLUMN_START_MAX) ∧
      (MT9P031_ROW_START_MIN ≤ r.2.2.2.rect.top ∧
        r.2.2.2.rect.top ≤ MT9P031_ROW_START_MAX)) ∧
    ((crop.which = V4L2_SUBDEV_FORMAT_TRY ∨ crop.which = V4L2_SUBDEV_FORMAT_ACTIVE) →
      (∀ f, mt9p031_get_pad_format crop.pad crop.which = some f →
        1 ≤ (load_format s fh f).width ∧ (load_format s fh f).width < 2147483648 ∧
        1 ≤ (load_format s fh f).height ∧ (load_format s fh f).height < 2147483648) →
      ∃ r, mt9p031_set_crop s fh crop = some r) := by
  refine ⟨?_, set_crop_defined s fh crop⟩
  intro r hr
  obtain ⟨_, h2, h3, h4⟩ := set_crop_stored s fh crop r hr
  obtain ⟨_, bw, bh, bl, bt⟩ := set_crop_rect_bounds crop.rect
  rw [h2, h3]
  unfold MT9P031_WINDOW_WIDTH_MIN MT9P031_WINDOW_WIDTH_MAX MT9P031_WINDOW_HEIGHT_MIN
    MT9P031_WINDOW_HEIGHT_MAX MT9P031_COLUMN_START_MIN MT9P031_COLUMN_START_MAX
    MT9P031_ROW_START_MIN MT9P031_ROW_START_MAX
  refine ⟨rfl, h4, ⟨bw.1, by omega⟩, ⟨bh.1, by omega⟩, ⟨by omega, bl.2⟩, ⟨by omega, bt.2⟩⟩

/-- Witness for C5 (amended): the default window requested on the idle sensor. -/
theorem mt9p031_set_crop_limits_witness :
    ∃ r, mt9p031_set_crop sensor_idle fh_idle crop_full = some r ∧
      r.2.2.2.rect.width ≤ MT9P031_WINDOW_WIDTH_MAX + 1 ∧
      r.2.2.2.rect.height ≤ MT9P031_WINDOW_HEIGHT_MAX + 1 := by
  obtain ⟨r, hr⟩ := (mt9p031_set_crop_limits sensor_idle fh_idle crop_full).2
    (Or.inr rfl) (by
      intro f hf
      have e : f = PadPtr.active := by
        have : mt9p031_get_pad_format crop_full.pad crop_full.which = some PadPtr.active := rfl
        rw [this] at hf
        exact (Option.some.inj hf).symm
      subst e
      decide)
  have h := (mt9p031_set_crop_limits sensor_idle fh_idle crop_full).1 r hr
  exact ⟨r, hr, h.2.2.1.2, h.2.2.2.1.2⟩

theorem load_format_store (s : mt9p031) (fh : v4l2_subdev_fh) (f : PadPtr) (w h : Nat) :
    load_format (store_format_size s fh f w h).1 (store_format_size s fh f w h).2 f =
      { load_format s fh f with width := w, height := h } := by
  cases f <;> simp [store_format_size, load_format]

theorem set_crop_commit_format (s : mt9p031) (fh : v4l2_subdev_fh) (crop : v4l2_subdev_crop)
    (c : PadPtr) (rect : v4l2_rect) (xskip yskip : Nat) :
    (mt9p031_set_crop_commit s fh crop c rect xskip yskip).2.1.format = s.format ∧
    (mt9p031_set_crop_commit s fh crop c rect xskip yskip).2.2.1.try_fmt = fh.try_fmt ∧
    (mt9p031_set_crop_commit s fh crop c rect xskip yskip).2.1.xskip = xskip ∧
    (mt9p031_set_crop_commit s fh crop c rect xskip yskip).2.1.yskip = yskip ∧
    ∀ f, load_format (mt9p031_set_crop_commit s fh crop c rect xskip yskip).2.1
      (mt9p031_set_crop_commit s fh crop c rect xskip yskip).2.2.1 f = load_format s fh f := by
  unfold mt9p031_set_crop_commit
  cases c
  · refine ⟨rfl, rfl, rfl, rfl, ?_⟩
    intro f
    cases f <;> rfl
  · refine ⟨rfl, rfl, rfl, rfl, ?_⟩
    intro f
    cases f <;> rfl

theorem crop_full_rect :
    mt9p031_set_crop_rect crop_full.rect = { left := 16, top := 54, width := 2752, height := 2004 } := by
  have ew : ALIGN (clamp 2751 18 2751) 2 = 2752 := by
    rw [ALIGN_two _ (by decide)]; decide
  have eh : ALIGN (clamp 2003 2 2003) 2 = 2004 := by
    rw [ALIGN_two _ (by decide)]; decide
  have el : ALIGN (clamp 16 1 2750) 2 = 16 := by
    rw [ALIGN_two _ (by decide)]; decide
  have et : ALIGN (clamp 54 1 2004) 2 = 54 := by
    rw [ALIGN_two _ (by decide)]; decide
  show ({ width := ALIGN (clamp 2751 18 2751) 2, height := ALIGN (clamp 2003 2 2003) 2,
          left := ALIGN (clamp 16 1 2750) 2, top := ALIGN (clamp 54 1 2004) 2 } : v4l2_rect) = _
  rw [ew, eh, el, et]

/-- C6: `mt9p031_set_crop` resets the output size exactly when the crop size was modified.
If the clamped and aligned width or height differs from the selected crop rectangle's, the
width and height of the selected pad format become the values `mt9p031_skip_for_crop`
leaves in its target (limits 7 and 8), the other format fields stay, and `xskip`, `yskip`
become the factors it returns; if both are equal, every pad format and both skip factors
are as before.  The call returns whenever `which` is TRY or ACTIVE and the selected pad
format has a positive width and height. -/
theorem mt9p031_set_crop_output_size (s : mt9p031) (fh : v4l2_subdev_fh)
    (crop : v4l2_subdev_crop) :
    (∀ r c f, mt9p031_set_crop s fh crop = some r →
      mt9p031_get_pad_crop crop.pad crop.which = some c →
      mt9p031_get_pad_format crop.pad crop.which = some f →
      if (mt9p031_set_crop_rect crop.rect).width ≠ (load_crop s fh c).width ∨
          (mt9p031_set_crop_rect crop.rect).height ≠ (load_crop s fh c).height then
        ∃ x y,
          mt9p031_skip_for_crop (mt9p031_set_crop_rect crop.rect).width
            (to_s32 (load_format s fh f).width) 7 = some x ∧
          mt9p031_skip_for_crop (mt9p031_set_crop_rect crop.rect).height
            (to_s32 (load_format s fh f).height) 8 = some y ∧
          load_format r.2.1 r.2.2.1 f =
            { load_format s fh f with width := to_u32 x.2, height := to_u32 y.2 } ∧
          r.2.1.xskip = x.1 ∧ r.2.1.yskip = y.1
      else
        r.2.1.format = s.format ∧ r.2.2.1.try_fmt = fh.try_fmt ∧
        r.2.1.xskip = s.xskip ∧ r.2.1.yskip = s.yskip) ∧
    ((crop.which = V4L2_SUBDEV_FORMAT_TRY ∨ crop.which = V4L2_SUBDEV_FORMAT_ACTIVE) →
      (∀ f, mt9p031_get_pad_format crop.pad crop.which = some f →
        1 ≤ (load_format s fh f).width ∧ (load_format s fh f).width < 2147483648 ∧
        1 ≤ (load_format s fh f).height ∧ (load_format s fh f).height < 2147483648) →
      ∃ r, mt9p031_set_crop s fh crop = some r) := by
  refine ⟨?_, set_crop_defined s fh crop⟩
  intro r c f hr hc hf
  obtain ⟨c1, hc1, hf1, hcase⟩ := set_crop_some s fh crop r hr
  rw [hc] at hc1
  rw [hf] at hf1
  simp only [Option.some.injEq] at hc1 hf1
  subst hc1
  subst hf1
  rcases hcase with ⟨hd, x, y, hx, hy, hrr⟩ | ⟨hd, hrr⟩
  · rw [if_pos hd]
    refine ⟨x, y, hx, hy, ?_⟩
    have hfm := set_crop_commit_format
      (store_format_size s fh f (to_u32 x.2) (to_u32 y.2)).1
      (store_format_size s fh f (to_u32 x.2) (to_u32 y.2)).2 crop f
      (mt9p031_set_crop_rect crop.rect) x.1 y.1
    rw [← hrr] at hfm
    refine ⟨?_, hfm.2.2.1, hfm.2.2.2.1⟩
    rw [hfm.2.2.2.2 f, load_format_store]
  · rw [if_neg hd]
    have hfm := set_crop_commit_format s fh crop f (mt9p031_set_crop_rect crop.rect)
      s.xskip s.yskip
    rw [← hrr] at hfm
    exact ⟨hfm.1, hfm.2.1, hfm.2.2.1, hfm.2.2.2.1⟩

/-- Witness for C6: requesting the default window on the idle sensor changes the stored
size from 2751 x 2003 to 2752 x 2004, so the active format is reset to 2752 x 2004 with
skip factors 1 and 1. -/
theorem mt9p031_set_crop_output_size_witness :
    ∃ r, mt9p031_set_crop sensor_idle fh_idle crop_full = some r ∧
      r.2.1.format.width = 2752 ∧ r.2.1.format.height = 2004 ∧
      r.2.1.xskip = 1 ∧ r.2.1.yskip = 1 := by
  obtain ⟨r, hr⟩ := (mt9p031_set_crop_output_size sensor_idle fh_idle crop_full).2
    (Or.inr rfl) (by
      intro f hf
      have e : f = PadPtr.active := by
        have : mt9p031_get_pad_format crop_full.pad crop_full.which = some PadPtr.active := rfl
        rw [this] at hf
        exact (Option.some.inj hf).symm
      subst e
      decide)
  have h := (mt9p031_set_crop_output_size sensor_idle fh_idle crop_full).1 r
    PadPtr.active PadPtr.active hr rfl rfl
  rw [crop_full_rect] at h
  rw [if_pos (by decide)] at h
  obtain ⟨x, y, hx, hy, hfmt, hxs, hys⟩ := h
  have ex : mt9p031_skip_for_crop 2752 (to_s32 2751) 7 = some (1, 2752) := by decide
  have ey : mt9p031_skip_for_crop 2004 (to_s32 2003) 8 = some (1, 2004) := by decide
  have hx2 : x = (1, 2752) := by
    have := hx.symm.trans ex
    exact Option.some.inj this
  have hy2 : y = (1, 2004) := by
    have := hy.symm.trans ey
    exact Option.some.inj this
  subst hx2
  subst hy2
  refine ⟨r, hr, ?_, ?_, hxs, hys⟩
  · have := congrArg v4l2_mbus_framefmt.width hfmt
    exact this
  · have := congrArg v4l2_mbus_framefmt.height hfmt
    exact this

/-! ### `tfc_panel_enable` -/

/-- C7 (code defect): with a disabled panel, no board callback and a DPI enable that
succeeds, `tfc_panel_enable` returns 0 and the state is still
`OMAP_DSS_DISPLAY_DISABLED`; the following `tfc_panel_disable` therefore returns at its
state test and never calls `omapdss_dpi_display_disable`. -/
theorem tfc_panel_enable_success_state :
    tfc_panel_enable dss_core_ok panel_off =
      (0, { state := omap_dss_display_state.OMAP_DSS_DISPLAY_DISABLED,
            log := [DssOp.omapdss_dpi_display_enable] }) ∧
    tfc_panel_disable dss_core_ok (tfc_panel_enable dss_core_ok panel_off).2 =
      (tfc_panel_enable dss_core_ok panel_off).2 ∧
    DssOp.omapdss_dpi_display_disable ∉
      (tfc_panel_disable dss_core_ok (tfc_panel_enable dss_core_ok panel_off).2).log := by
  decide

/-- C8 (code defect): when the DPI enable fails with -5, and likewise when the board's
`platform_enable` fails with -5, `tfc_panel_enable` returns -5 and the state, which was
`OMAP_DSS_DISPLAY_DISABLED`, is `OMAP_DSS_DISPLAY_ACTIVE` on return. -/
theorem tfc_panel_enable_failure_state :
    tfc_panel_enable (dss_core_fail (-5)) panel_off =
      (-5, { state := omap_dss_display_state.OMAP_DSS_DISPLAY_ACTIVE,
             log := [DssOp.omapdss_dpi_display_enable] }) ∧
    tfc_panel_enable (dss_board_fail (-5)) panel_off =
      (-5, { state := omap_dss_display_state.OMAP_DSS_DISPLAY_ACTIVE,
             log := [DssOp.omapdss_dpi_display_enable, DssOp.platform_enable,
                     DssOp.omapdss_dpi_display_disable] }) := by
  decide

/-- The driver's own writes to `state` in `tfc_panel_enable`: on a return of 0 the state is
whatever the display core and the board callback left, on any other return it is
`OMAP_DSS_DISPLAY_ACTIVE`. -/
theorem tfc_panel_enable_state (env : omap_dss_env) (dssdev : omap_dss_device)
    (h : dssdev.state ≠ omap_dss_display_state.OMAP_DSS_DISPLAY_ACTIVE) :
    ((tfc_panel_enable env dssdev).1 ≠ 0 →
      (tfc_panel_enable env dssdev).2.state = omap_dss_display_state.OMAP_DSS_DISPLAY_ACTIVE) ∧
    ((tfc_panel_enable env dssdev).1 = 0 →
      (tfc_panel_enable env dssdev).2 =
        match env.platform_enable with
        | some enable => (enable (env.omapdss_dpi_display_enable dssdev).2).2
        | none => (env.omapdss_dpi_display_enable dssdev).2) := by
  unfold tfc_panel_enable
  rw [if_neg h]
  simp only []
  by_cases h1 : (env.omapdss_dpi_display_enable dssdev).1 ≠ 0
  · rw [if_pos h1]
    exact ⟨fun _ => rfl, fun h0 => absurd h0 h1⟩
  · rw [if_neg h1]
    cases hp : env.platform_enable with
    | none => exact ⟨fun hn => absurd rfl hn, fun _ => rfl⟩
    | some enable =>
      simp only []
      by_cases h2 : (enable (env.omapdss_dpi_display_enable dssdev).2).1 ≠ 0
      · rw [if_pos h2]
        exact ⟨fun _ => rfl, fun h0 => absurd h0 h2⟩
      · rw [if_neg h2]
        exact ⟨fun hn => absurd rfl hn, fun _ => rfl⟩

/-! ### `omap_target` -/

/-- C9: while `is_smp()` holds and fewer than `NR_CPUS` CPUs are online, `omap_target`
returns 0 and leaves everything as it was: the clock rate, `loops_per_jiffy` (global and
per CPU) and the call log, so no frequency lookup, no transition notification and no
`clk_set_rate` call happened; this for every policy, target frequency and relation. -/
theorem omap_target_not_all_online (p : omap_platform) (k : omap_cpufreq)
    (policy : cpufreq_policy) (target_freq relation : Nat)
    (hsmp : p.is_smp = true) (honline : p.num_online_cpus < p.NR_CPUS) :
    omap_target p k policy target_freq relation = some (0, k) := by
  unfold omap_target
  rw [if_pos ⟨hsmp, honline⟩]

/-- Witness for C9: a dual-core platform with one CPU online. -/
theorem omap_target_not_all_online_witness :
    omap_target platform_smp_booting cpufreq_600
      { cpu := 0, min := 300000, max := 1008000, cpus := [0, 1] } 800000 0 =
      some (0, cpufreq_600) :=
  omap_target_not_all_online platform_smp_booting cpufreq_600
    { cpu := 0, min := 300000, max := 1008000, cpus := [0, 1] } 800000 0 rfl (by decide)

theorem log_grows_refl (a : List CpufreqOp) : log_grows a a :=
  ⟨[], by simp, by simp⟩

theorem log_grows_trans {a b c : List CpufreqOp} (h1 : log_grows a b) (h2 : log_grows b c) :
    log_grows a c := by
  obtain ⟨r1, e1, n1⟩ := h1
  obtain ⟨r2, e2, n2⟩ := h2
  refine ⟨r1 ++ r2, by rw [e2, e1, List.append_assoc], ?_⟩
  intro rate hmem
  rcases List.mem_append.1 hmem with h | h
  · exact n1 rate h
  · exact n2 rate h

theorem omap_getspeed_grows (p : omap_platform) (k : omap_cpufreq) (cpu : Nat) :
    log_grows k.log (omap_getspeed p k cpu).2.log := by
  unfold omap_getspeed
  split
  · exact log_grows_refl _
  · exact ⟨[CpufreqOp.clk_get_rate], rfl, by simp⟩

theorem omap_target_notify_grows (p : omap_platform) (k : omap_cpufreq)
    (policy : cpufreq_policy) (old new state : Nat) :
    log_grows k.log (omap_target_notify p k policy old new state).log := by
  unfold omap_target_notify
  split
  · exact ⟨_, rfl, by simp⟩
  · exact ⟨_, rfl, by simp⟩

theorem foldl_lpj_log (p : omap_platform) (old new2 : Nat) (cpus : List Nat) :
    ∀ k : omap_cpufreq,
      (cpus.foldl (fun (a : omap_cpufreq) i =>
        { a with cpu_data_loops_per_jiffy := fun j =>
            if j = i then p.cpufreq_scale (a.cpu_data_loops_per_jiffy i) old new2
            else a.cpu_data_loops_per_jiffy j }) k).log = k.log := by
  induction cpus with
  | nil => intro k; rfl
  | cons a rest ih =>
    intro k
    rw [List.foldl_cons, ih]

theorem omap_target_update_lpj_log (p : omap_platform) (k : omap_cpufreq)
    (policy : cpufreq_policy) (old new : Nat) :
    (omap_target_update_lpj p k policy old new).log = k.log := by
  unfold omap_target_update_lpj
  split
  · rfl
  · split
    · exact foldl_lpj_log p old new policy.cpus k
    · rfl

/-- The calls `omap_target` makes once `freqs.new` is resolved are appended to the log and
none of them is a `clk_round_rate`. -/
theorem omap_target_transition_grows (p : omap_platform) (k : omap_cpufreq)
    (policy : cpufreq_policy) (new : Nat) :
    log_grows k.log (omap_target_transition p k policy new).2.log := by
  unfold omap_target_transition
  split
  · exact log_grows_refl _
  · simp only []
    split
    · exact omap_getspeed_grows p k policy.cpu
    · refine log_grows_trans ?_ (omap_target_notify_grows _ _ _ _ _ _)
      rw [omap_target_update_lpj_log]
      refine log_grows_trans ?_ (omap_getspeed_grows _ _ _)
      refine log_grows_trans ?_ ⟨[CpufreqOp.clk_set_rate _], rfl, by simp⟩
      refine log_grows_trans ?_ (omap_target_notify_grows _ _ _ _ _ _)
      exact omap_getspeed_grows p k policy.cpu

/-- C10, as stated, fails: with `policy->min = policy->max = 4294968` (kHz) and no
frequency table, a `target_freq` of 0 is clamped to 4294968, but the rate passed to
`clk_round_rate` is 704, not 1000 * 4294968: the product is formed in `unsigned int`. -/
theorem omap_target_rate_wraps :
    ∃ r, omap_target platform_up cpufreq_600 policy_wide 0 0 = some r ∧
      r.2.log = [CpufreqOp.clk_round_rate 704] ∧
      CpufreqOp.clk_round_rate (1000 * 4294968) ∉ r.2.log := by
  refine ⟨(-EINVAL, { cpufreq_600 with log := [CpufreqOp.clk_round_rate 704] }), ?_, rfl, ?_⟩
  · rfl
  · decide

/-- C10 (amended): without a frequency table, and past the all-CPUs-online test, for every
`target_freq` and every policy with `min <= max`, `omap_target` makes exactly one
`clk_round_rate` call, as its first call, and the rate passed is 1000 times `target_freq`
clamped into [`policy->min`, `policy->max`], reduced modulo 2^32.  The reduction changes
nothing when `policy->max <= 4294967`; a `target_freq` of 0 is clamped to `policy->min`. -/
theorem omap_target_fallback_rate (p : omap_platform) (k : omap_cpufreq)
    (policy : cpufreq_policy) (target_freq relation : Nat)
    (hgo : ¬ (p.is_smp = true ∧ p.num_online_cpus < p.NR_CPUS))
    (htab : p.freq_table = none) (hmm : policy.min ≤ policy.max) :
    ∃ r rest, omap_target p k policy target_freq relation = some r ∧
      r.2.log = k.log ++ CpufreqOp.clk_round_rate
        ((1000 * max policy.min (min target_freq policy.max)) % 4294967296) :: rest ∧
      (∀ rate, CpufreqOp.clk_round_rate rate ∉ rest) ∧
      (policy.max ≤ 4294967 →
        (1000 * max policy.min (min target_freq policy.max)) % 4294967296 =
          1000 * max policy.min (min target_freq policy.max)) ∧
      (target_freq = 0 → max policy.min (min target_freq policy.max) = policy.min) := by
  have hclamp : (if (if target_freq < policy.min then policy.min else target_freq) > policy.max
      then policy.max else (if target_freq < policy.min then policy.min else target_freq)) =
      max policy.min (min target_freq policy.max) := by
    split <;> split <;> omega
  unfold omap_target
  rw [if_neg hgo]
  unfold omap_target_resolve
  rw [htab]
  simp only [hclamp]
  obtain ⟨rest, hrest, hno⟩ := omap_target_transition_grows p
    (k.emit [CpufreqOp.clk_round_rate
      ((max policy.min (min target_freq policy.max) * 1000) % 4294967296)]) policy
    (to_u32 (Int.tdiv (p.clk_round_rate
      ((max policy.min (min target_freq policy.max) * 1000) % 4294967296)) 1000))
  refine ⟨_, rest, rfl, ?_, hno, ?_, ?_⟩
  · rw [hrest]
    simp only [omap_cpufreq.emit, List.append_assoc, List.singleton_append]
    rw [Nat.mul_comm]
  · intro hmax
    apply Nat.mod_eq_of_lt
    omega
  · intro h0
    omega

/-- Witness for C10 (amended): on the uniprocessor platform, a request for 0 under a
300 to 600 MHz policy passes 300000000 to `clk_round_rate`. -/
theorem omap_target_fallback_rate_witness :
    ∃ r rest, omap_target platform_up cpufreq_600 policy_omap3 0 0 = some r ∧
      r.2.log = [] ++ CpufreqOp.clk_round_rate 300000000 :: rest := by
  obtain ⟨r, rest, hr, hlog, _⟩ := omap_target_fallback_rate platform_up cpufreq_600
    policy_omap3 0 0 (by decide) rfl (by decide)
  exact ⟨r, rest, hr, hlog⟩

/-- The call `omap_target_resolve` logs: exactly one, a table lookup or a `clk_round_rate`;
nothing else of the state changes. -/
theorem omap_target_resolve_log (p : omap_platform) (k : omap_cpufreq)
    (policy : cpufreq_policy) (target_freq relation : Nat) (v : Sum Int Nat)
    (k1 : omap_cpufreq)
    (h : omap_target_resolve p k policy target_freq relation = some (v, k1)) :
    (∃ op, k1.log = k.log ++ [op] ∧
      (op = CpufreqOp.cpufreq_frequency_table_target target_freq relation ∨
        ∃ rate, op = CpufreqOp.clk_round_rate rate)) ∧
    k1.mpu_clk_rate = k.mpu_clk_rate ∧ k1.loops_per_jiffy = k.loops_per_jiffy ∧
    k1.cpu_data_loops_per_jiffy = k.cpu_data_loops_per_jiffy := by
  unfold omap_target_resolve at h
  cases ht : p.freq_table with
  | none =>
    rw [ht] at h
    simp only [Option.some.injEq, Prod.mk.injEq] at h
    obtain ⟨_, hk⟩ := h
    rw [← hk]
    exact ⟨⟨_, rfl, Or.inr ⟨_, rfl⟩⟩, rfl, rfl, rfl⟩
  | some table =>
    rw [ht] at h
    simp only [] at h
    split at h
    · simp only [Option.some.injEq, Prod.mk.injEq] at h
      obtain ⟨_, hk⟩ := h
      rw [← hk]
      exact ⟨⟨_, rfl, Or.inl rfl⟩, rfl, rfl, rfl⟩
    · split at h
      · exact absurd h (by simp)
      · simp only [Option.some.injEq, Prod.mk.injEq] at h
        obtain ⟨_, hk⟩ := h
        rw [← hk]
        exact ⟨⟨_, rfl, Or.inl rfl⟩, rfl, rfl, rfl⟩

/-- C11: whenever the frequency `omap_target` resolves (the table entry chosen, or
`clk_round_rate(...) / 1000` without a table) is 0, `omap_target` returns `-EINVAL`; the
only call it has made is the lookup itself, so no transition notification was sent and
`clk_set_rate` was not called, and the clock rate and `loops_per_jiffy` are as before. -/
theorem omap_target_zero_frequency (p : omap_platform) (k k1 : omap_cpufreq)
    (policy : cpufreq_policy) (target_freq relation : Nat)
    (hgo : ¬ (p.is_smp = true ∧ p.num_online_cpus < p.NR_CPUS))
    (hres : omap_target_resolve p k policy target_freq relation = some (Sum.inr 0, k1)) :
    omap_target p k policy target_freq relation = some (-EINVAL, k1) ∧
    (∃ op, k1.log = k.log ++ [op] ∧
      (op = CpufreqOp.cpufreq_frequency_table_target target_freq relation ∨
        ∃ rate, op = CpufreqOp.clk_round_rate rate)) ∧
    (∀ f st, CpufreqOp.cpufreq_notify_transition f st ∉ k1.log.drop k.log.length) ∧
    (∀ rate, CpufreqOp.clk_set_rate rate ∉ k1.log.drop k.log.length) ∧
    k1.mpu_clk_rate = k.mpu_clk_rate ∧ k1.loops_per_jiffy = k.loops_per_jiffy ∧
    k1.cpu_data_loops_per_jiffy = k.cpu_data_loops_per_jiffy := by
  obtain ⟨⟨op, hlog, hop⟩, h2, h3, h4⟩ :=
    omap_target_resolve_log p k policy target_freq relation _ k1 hres
  have hdrop : k1.log.drop k.log.length = [op] := by
    rw [hlog, List.drop_left]
  refine ⟨?_, ⟨op, hlog, hop⟩, ?_, ?_, h2, h3, h4⟩
  · unfold omap_target
    rw [if_neg hgo, hres]
    simp only [omap_target_transition, if_true]
  · intro f st hmem
    rw [hdrop, List.mem_singleton] at hmem
    rcases hop with h | ⟨rate, h⟩ <;> rw [h] at hmem <;> exact absurd hmem (by simp)
  · intro rate hmem
    rw [hdrop, List.mem_singleton] at hmem
    rcases hop with h | ⟨rate2, h⟩ <;> rw [h] at hmem <;> exact absurd hmem (by simp)

/-- Witness for C11: on the uniprocessor platform the wrapped request of 704 Hz rounds to
0 kHz, and the call returns `-EINVAL` after the single `clk_round_rate`. -/
theorem omap_target_zero_frequency_witness :
    omap_target platform_up cpufreq_600 policy_wide 0 0 =
      some (-EINVAL, cpufreq_600.emit [CpufreqOp.clk_round_rate 704]) :=
  (omap_target_zero_frequency platform_up cpufreq_600
    (cpufreq_600.emit [CpufreqOp.clk_round_rate 704]) policy_wide 0 0 (by decide) rfl).1

/-! ### `omap3_beagle_init_rev` -/

/-- With all three pins obtained and shifts that are defined, `omap3_beagle_init_rev`
reads the pins and assigns the revision its `switch` selects. -/
theorem init_rev_read (env : beagle_gpio) (b : beagle_board)
    (h171 : 0 ≤ env.gpio_request 171) (h172 : 0 ≤ env.gpio_request 172)
    (h173 : 0 ≤ env.gpio_request 173) (v1 v2 : Int)
    (hs1 : s32_shl (env.gpio_get_value 172) 1 = some v1)
    (hs2 : s32_shl (env.gpio_get_value 173) 2 = some v2) :
    omap3_beagle_init_rev env b =
      some { omap3_beagle_version := omap3_beagle_rev_switch
               (to_u16 (to_u32 (Int.lor (Int.lor (env.gpio_get_value 171) v1) v2))),
             log := b.log ++ [GpioOp.omap_mux_init_gpio 171, GpioOp.omap_mux_init_gpio 172,
               GpioOp.omap_mux_init_gpio 173, GpioOp.gpio_request 171,
               GpioOp.gpio_request 172, GpioOp.gpio_request 173,
               GpioOp.gpio_direction_input 171, GpioOp.gpio_direction_input 172,
               GpioOp.gpio_direction_input 173, GpioOp.gpio_get_value 171,
               GpioOp.gpio_get_value 172, GpioOp.gpio_get_value 173] } := by
  unfold omap3_beagle_init_rev
  rw [if_neg (by omega), if_neg (by omega), if_neg (by omega), hs1, hs2]
  simp [beagle_board.emit]

/-- The revision assigned for pin levels that are each 0 or 1. -/
theorem init_rev_bits (env : beagle_gpio) (b : beagle_board)
    (h171 : 0 ≤ env.gpio_request 171) (h172 : 0 ≤ env.gpio_request 172)
    (h173 : 0 ≤ env.gpio_request 173) (g171 g172 g173 : Nat)
    (e171 : env.gpio_get_value 171 = g171) (e172 : env.gpio_get_value 172 = g172)
    (e173 : env.gpio_get_value 173 = g173)
    (b171 : g171 ≤ 1) (b172 : g172 ≤ 1) (b173 : g173 ≤ 1) :
    ∃ b2, omap3_beagle_init_rev env b = some b2 ∧
      b2.omap3_beagle_version = omap3_beagle_rev_switch (g171 + 2 * g172 + 4 * g173) := by
  have hs1 : s32_shl (env.gpio_get_value 172) 1 = some ((2 * g172 : Nat) : Int) := by
    unfold s32_shl INT_MAX
    rw [e172, if_pos (by constructor <;> omega)]
    congr 1
    push_cast
    ring
  have hs2 : s32_shl (env.gpio_get_value 173) 2 = some ((4 * g173 : Nat) : Int) := by
    unfold s32_shl INT_MAX
    rw [e173, if_pos (by constructor <;> omega)]
    congr 1
    push_cast
    ring
  refine ⟨_, init_rev_read env b h171 h172 h173 _ _ hs1 hs2, ?_⟩
  show omap3_beagle_rev_switch _ = _
  rw [e171]
  congr 1
  have c1 : g171 = 0 ∨ g171 = 1 := by omega
  have c2 : g172 = 0 ∨ g172 = 1 := by omega
  have c3 : g173 = 0 ∨ g173 = 1 := by omega
  rcases c1 with rfl | rfl <;> rcases c2 with rfl | rfl <;> rcases c3 with rfl | rfl <;> decide

/-- C12: when all three revision GPIOs are obtained, `omap3_beagle_init_rev` assigns the
revision the documented table gives for the levels of (GPIO173, GPIO172, GPIO171):
1 1 1 is AXBX, 1 1 0 is C1_3, 1 0 1 is C4, 0 0 0 and 0 0 1 are XM, 0 1 0 is XMC. -/
theorem omap3_beagle_init_rev_decodes (env : beagle_gpio) (b : beagle_board) (v : Nat)
    (h171 : 0 ≤ env.gpio_request 171) (h172 : 0 ≤ env.gpio_request 172)
    (h173 : 0 ≤ env.gpio_request 173)
    (hdoc : beagle_documented_rev (env.gpio_get_value 173) (env.gpio_get_value 172)
      (env.gpio_get_value 171) = some v) :
    (∃ b2, omap3_beagle_init_rev env b = some b2 ∧ b2.omap3_beagle_version = v) ∧
    (beagle_documented_rev 1 1 1 = some OMAP3BEAGLE_BOARD_AXBX ∧
     beagle_documented_rev 1 1 0 = some OMAP3BEAGLE_BOARD_C1_3 ∧
     beagle_documented_rev 1 0 1 = some OMAP3BEAGLE_BOARD_C4 ∧
     beagle_documented_rev 0 0 0 = some OMAP3BEAGLE_BOARD_XM ∧
     beagle_documented_rev 0 0 1 = some OMAP3BEAGLE_BOARD_XM ∧
     beagle_documented_rev 0 1 0 = some OMAP3BEAGLE_BOARD_XMC) := by
  refine ⟨?_, by decide⟩
  have key : ∀ g171 g172 g173 : Nat, g171 ≤ 1 → g172 ≤ 1 → g173 ≤ 1 →
      env.gpio_get_value 173 = g173 → env.gpio_get_value 172 = g172 →
      env.gpio_get_value 171 = g171 →
      omap3_beagle_rev_switch (g171 + 2 * g172 + 4 * g173) = v →
      ∃ b2, omap3_beagle_init_rev env b = some b2 ∧ b2.omap3_beagle_version = v := by
    intro g171 g172 g173 b171 b172 b173 e173 e172 e171 hv
    obtain ⟨b2, hb2, hver⟩ := init_rev_bits env b h171 h172 h173 g171 g172 g173
      e171 e172 e173 b171 b172 b173
    exact ⟨b2, hb2, by rw [hver, hv]⟩
  unfold beagle_documented_rev at hdoc
  split at hdoc
  · rename_i h
    exact key 1 1 1 (by decide) (by decide) (by decide) h.1 h.2.1 h.2.2
      (Option.some.inj hdoc)
  · split at hdoc
    · rename_i h
      exact key 0 1 1 (by decide) (by decide) (by decide) h.1 h.2.1 h.2.2
        (Option.some.inj hdoc)
    · split at hdoc
      · rename_i h
        exact key 1 0 1 (by decide) (by decide) (by decide) h.1 h.2.1 h.2.2
          (Option.some.inj hdoc)
      · split at hdoc
        · rename_i h
          exact key 0 0 0 (by decide) (by decide) (by decide) h.1 h.2.1 h.2.2
            (Option.some.inj hdoc)
        · split at hdoc
          · rename_i h
            exact key 1 0 0 (by decide) (by decide) (by decide) h.1 h.2.1 h.2.2
              (Option.some.inj hdoc)
          · split at hdoc
            · rename_i h
              exact key 0 1 0 (by decide) (by decide) (by decide) h.1 h.2.1 h.2.2
                (Option.some.inj hdoc)
            · exact absurd hdoc (by simp)

/-- Witness for C12: pins reading 0 1 0 give `OMAP3BEAGLE_BOARD_XMC`. -/
theorem omap3_beagle_init_rev_decodes_witness :
    ∃ b2, omap3_beagle_init_rev gpio_xmc beagle_boot = some b2 ∧
      b2.omap3_beagle_version = OMAP3BEAGLE_BOARD_XMC :=
  (omap3_beagle_init_rev_decodes gpio_xmc beagle_boot OMAP3BEAGLE_BOARD_XMC
    (by decide) (by decide) (by decide) (by decide)).1

/-- C13: `omap3_beagle_init_rev` always assigns a revision.  With all three pins obtained
and each level 0 or 1, a pattern the documented table does not list (the values 3 and 4)
gives `OMAP3BEAGLE_BOARD_XMC`.  When a `gpio_request` fails the revision is
`OMAP3BEAGLE_BOARD_UNKN` and the pins requested before it are freed: none when the first
request fails, 171 when the second fails, 172 and 171 when the third fails. -/
theorem omap3_beagle_init_rev_fallback (env : beagle_gpio) (b : beagle_board) :
    (0 ≤ env.gpio_request 171 → 0 ≤ env.gpio_request 172 → 0 ≤ env.gpio_request 173 →
      (env.gpio_get_value 171 = 0 ∨ env.gpio_get_value 171 = 1) →
      (env.gpio_get_value 172 = 0 ∨ env.gpio_get_value 172 = 1) →
      (env.gpio_get_value 173 = 0 ∨ env.gpio_get_value 173 = 1) →
      beagle_documented_rev (env.gpio_get_value 173) (env.gpio_get_value 172)
        (env.gpio_get_value 171) = none →
      (env.gpio_get_value 171 + 2 * env.gpio_get_value 172 + 4 * env.gpio_get_value 173 = 3 ∨
        env.gpio_get_value 171 + 2 * env.gpio_get_value 172 + 4 * env.gpio_get_value 173 = 4) ∧
      ∃ b2, omap3_beagle_init_rev env b = some b2 ∧
        b2.omap3_beagle_version = OMAP3BEAGLE_BOARD_XMC) ∧
    (env.gpio_request 171 < 0 →
      omap3_beagle_init_rev env b =
        some { omap3_beagle_version := OMAP3BEAGLE_BOARD_UNKN,
               log := b.log ++ [GpioOp.omap_mux_init_gpio 171, GpioOp.omap_mux_init_gpio 172,
                 GpioOp.omap_mux_init_gpio 173, GpioOp.gpio_request 171] }) ∧
    (0 ≤ env.gpio_request 171 → env.gpio_request 172 < 0 →
      omap3_beagle_init_rev env b =
        some { omap3_beagle_version := OMAP3BEAGLE_BOARD_UNKN,
               log := b.log ++ [GpioOp.omap_mux_init_gpio 171, GpioOp.omap_mux_init_gpio 172,
                 GpioOp.omap_mux_init_gpio 173, GpioOp.gpio_request 171,
                 GpioOp.gpio_request 172, GpioOp.gpio_free 171] }) ∧
    (0 ≤ env.gpio_request 171 → 0 ≤ env.gpio_request 172 → env.gpio_request 173 < 0 →
      omap3_beagle_init_rev env b =
        some { omap3_beagle_version := OMAP3BEAGLE_BOARD_UNKN,
               log := b.log ++ [GpioOp.omap_mux_init_gpio 171, GpioOp.omap_mux_init_gpio 172,
                 GpioOp.omap_mux_init_gpio 173, GpioOp.gpio_request 171,
                 GpioOp.gpio_request 172, GpioOp.gpio_request 173,
                 GpioOp.gpio_free 172, GpioOp.gpio_free 171] }) := by
  refine ⟨?_, ?_, ?_, ?_⟩
  · intro h171 h172 h173 v171 v172 v173 hdoc
    have key : ∀ g171 g172 g173 : Nat, g171 ≤ 1 → g172 ≤ 1 → g173 ≤ 1 →
        env.gpio_get_value 171 = g171 → env.gpio_get_value 172 = g172 →
        env.gpio_get_value 173 = g173 →
        omap3_beagle_rev_switch (g171 + 2 * g172 + 4 * g173) = OMAP3BEAGLE_BOARD_XMC →
        ∃ b2, omap3_beagle_init_rev env b = some b2 ∧
          b2.omap3_beagle_version = OMAP3BEAGLE_BOARD_XMC := by
      intro g171 g172 g173 b171 b172 b173 e171 e172 e173 hv
      obtain ⟨b2, hb2, hver⟩ := init_rev_bits env b h171 h172 h173 g171 g172 g173
        e171 e172 e173 b171 b172 b173
      exact ⟨b2, hb2, by rw [hver, hv]⟩
    rcases v171 with e1 | e1 <;> rcases v172 with e2 | e2 <;> rcases v173 with e3 | e3 <;>
      rw [e1, e2, e3] at hdoc <;>
      first
      | exact absurd hdoc (by decide)
      | (rw [e1, e2, e3]
         refine ⟨by decide, ?_⟩
         first
         | exact key 1 1 0 (by decide) (by decide) (by decide) e1 e2 e3 (by decide)
         | exact key 0 0 1 (by decide) (by decide) (by decide) e1 e2 e3 (by decide))
  · intro h
    unfold omap3_beagle_init_rev
    rw [if_pos h]
    simp [beagle_board.emit]
  · intro h1 h2
    unfold omap3_beagle_init_rev
    rw [if_neg (by omega), if_pos h2]
    simp [beagle_board.emit]
  · intro h1 h2 h3
    unfold omap3_beagle_init_rev
    rw [if_neg (by omega), if_neg (by omega), if_pos h3]
    simp [beagle_board.emit]

/-- Witness for C13: with GPIO 173 busy the revision is unknown and 172, 171 are freed. -/
theorem omap3_beagle_init_rev_fallback_witness :
    omap3_beagle_init_rev gpio_173_busy beagle_boot =
      some { omap3_beagle_version := OMAP3BEAGLE_BOARD_UNKN,
             log := [] ++ [GpioOp.omap_mux_init_gpio 171, GpioOp.omap_mux_init_gpio 172,
               GpioOp.omap_mux_init_gpio 173, GpioOp.gpio_request 171,
               GpioOp.gpio_request 172, GpioOp.gpio_request 173,
               GpioOp.gpio_free 172, GpioOp.gpio_free 171] } :=
  (omap3_beagle_init_rev_fallback gpio_173_busy beagle_boot).2.2.2
    (by decide) (by decide) (by decide)

/-! ### `mt9p031_set_format` -/

theorem s32_chk_eq (r v : Int) (h : s32_chk r = some v) :
    v = r ∧ INT_MIN ≤ r ∧ r ≤ INT_MAX := by
  unfold s32_chk at h
  split at h
  · rename_i hr
    exact ⟨(Option.some.inj h).symm, hr⟩
  · exact absurd h (by simp)

theorem s32_div_eq (a b v : Int) (h : s32_div a b = some v) :
    b ≠ 0 ∧ v = Int.tdiv a b := by
  unfold s32_div at h
  split at h
  · exact absurd h (by simp)
  · rename_i hb
    exact ⟨hb, (s32_chk_eq _ _ h).1⟩

/-- Truncating division by 4 never moves a value away from zero. -/
theorem tdiv_four_bounds (a : Int) :
    (0 ≤ a → Int.tdiv a 4 = a / 4) ∧ (a ≤ 0 → a ≤ Int.tdiv a 4 ∧ Int.tdiv a 4 ≤ 0) := by
  constructor
  · intro h
    exact Int.tdiv_eq_ediv h (by decide)
  · intro h
    obtain ⟨n, hn⟩ := Int.eq_ofNat_of_zero_le (by omega : 0 ≤ -a)
    have e : a = -(n : Int) := by omega
    rw [e, Int.neg_tdiv, Int.tdiv_eq_ediv (by omega) (by decide)]
    omega

/-- For a target of at least 1 and a limit `max` of at least the target, every result of
`mt9p031_skip_for_scale` leaves `target * skip` in `*source`, with `1 <= skip <= max_skip`. -/
theorem skip_for_scale_spec (source target max_skip max : Int) (r : Nat × Int)
    (ht : 1 ≤ target) (hmax : target ≤ max) (hmax2 : max ≤ INT_MAX)
    (hm : 1 ≤ max_skip) (hm2 : max_skip ≤ 65535) (hprod : target * max_skip ≤ INT_MAX)
    (h : mt9p031_skip_for_scale source target max_skip max = some r) :
    r.2 = target * (r.1 : Int) ∧ 1 ≤ r.1 ∧ (r.1 : Int) ≤ max_skip := by
  unfold INT_MAX at hmax2 hprod
  unfold mt9p031_skip_for_scale at h
  cases hq : s32_div source 4 with
  | none => rw [hq] at h; exact absurd h (by simp)
  | some q =>
    rw [hq] at h
    simp only [Option.some_bind] at h
    have eq := (s32_div_eq _ _ _ hq).2
    cases hd : s32_sub source q with
    | none => rw [hd] at h; exact absurd h (by simp)
    | some d =>
      rw [hd] at h
      simp only [Option.some_bind] at h
      have ed := (s32_chk_eq _ _ hd).1
      by_cases hlt : d < target
      · rw [if_pos hlt] at h
        simp only [Option.some.injEq] at h
        rw [← h]
        refine ⟨by simp, by simp, by simpa using hm⟩
      · rw [if_neg hlt] at h
        have hsrc : target ≤ source := by
          by_cases hs : 0 ≤ source
          · have := (tdiv_four_bounds source).1 hs
            omega
          · have := (tdiv_four_bounds source).2 (by omega)
            omega
        cases hh : s32_div target 2 with
        | none => rw [hh] at h; exact absurd h (by simp)
        | some half =>
          rw [hh] at h
          simp only [Option.some_bind] at h
          have ehalf : half = target / 2 := by
            rw [(s32_div_eq _ _ _ hh).2, Int.tdiv_eq_ediv (by omega) (by decide)]
          cases hsum : s32_add source half with
          | none => rw [hsum] at h; exact absurd h (by simp)
          | some sum =>
            rw [hsum] at h
            simp only [Option.some_bind] at h
            have esum := (s32_chk_eq _ _ hsum).1
            cases hc : s32_div (c_min max sum) target with
            | none => rw [hc] at h; exact absurd h (by simp)
            | some c =>
              rw [hc] at h
              simp only [Option.some_bind, Option.some.injEq] at h
              have hmin1 : target ≤ c_min max sum := by
                unfold c_min
                split <;> omega
              have hmin2 : c_min max sum ≤ max := by
                unfold c_min
                split <;> omega
              have ec : c = c_min max sum / target := by
                rw [(s32_div_eq _ _ _ hc).2, Int.tdiv_eq_ediv (by omega) (by omega)]
              have hc1 : 1 ≤ c := by
                rw [ec]
                apply Int.le_ediv_of_mul_le (by omega)
                omega
              have hc2 : c ≤ c_min max sum := by
                rw [ec]
                exact Int.ediv_le_self _ (by omega)
              have hskip : ∀ k : Nat, 1 ≤ k → (k : Int) ≤ max_skip →
                  to_s32 ((to_u32 target * k) % 4294967296) = target * (k : Int) ∧
                  to_u16 k = k := by
                intro k hk1 hk2
                have hk3 : k ≤ 65535 := by omega
                have hp : target * (k : Int) ≤ 2147483647 := by
                  have : target * (k : Int) ≤ target * max_skip :=
                    Int.mul_le_mul_of_nonneg_left hk2 (by omega)
                  omega
                have hp0 : 0 ≤ target * (k : Int) :=
                  Int.mul_nonneg (by omega) (by omega)
                obtain ⟨t, et⟩ := Int.eq_ofNat_of_zero_le (by omega : 0 ≤ target)
                have etu : to_u32 target = t := by
                  rw [to_u32_small _ (by omega) (by omega), et]
                  rfl
                rw [etu]
                have hpn : t * k < 2147483648 := by
                  have : ((t * k : Nat) : Int) = target * (k : Int) := by
                    rw [et]; push_cast; rfl
                  omega
                constructor
                · rw [Nat.mod_eq_of_lt (by omega), to_s32_small _ hpn, et]
                  push_cast
                  rfl
                · unfold to_u16
                  exact Nat.mod_eq_of_lt (by omega)
              rw [to_u32_small c (by omega) (by omega),
                to_u32_small max_skip (by omega) (by omega)] at h
              by_cases hgt : c.toNat > max_skip.toNat
              · rw [if_pos hgt] at h
                obtain ⟨e1, e2⟩ := hskip max_skip.toNat (by omega) (by omega)
                rw [← h]
                simp only []
                rw [e1, e2]
                exact ⟨rfl, by omega, by omega⟩
              · rw [if_neg hgt] at h
                obtain ⟨e1, e2⟩ := hskip c.toNat (by omega) (by omega)
                rw [← h]
                simp only []
                rw [e1, e2]
                exact ⟨rfl, by omega, by omega⟩

/-- The output width (or height) `mt9p031_set_format` computes lies between 2 and the
window limit, whatever is requested. -/
theorem set_format_size_bounds (req : Nat) (max : Int) (h2 : 2 ≤ max) (hm : max ≤ 65535) :
    2 ≤ to_u32 (clamp_t_int (ALIGN_u32 req 2) 2 max) ∧
    ((to_u32 (clamp_t_int (ALIGN_u32 req 2) 2 max) : Nat) : Int) ≤ max ∧
    to_s32 (to_u32 (clamp_t_int (ALIGN_u32 req 2) 2 max)) =
      ((to_u32 (clamp_t_int (ALIGN_u32 req 2) 2 max) : Nat) : Int) := by
  unfold clamp_t_int
  obtain ⟨c1, c2⟩ := clamp_bounds (to_s32 (ALIGN_u32 req 2)) 2 max h2
  generalize clamp (to_s32 (ALIGN_u32 req 2)) 2 max = v at c1 c2
  rw [to_u32_small v (by omega) (by omega)]
  refine ⟨by omega, by omega, ?_⟩
  rw [to_s32_small _ (by omega)]

/-- Division of any `int` by 2 is defined. -/
theorem s32_div_two_defined (a : Int) (h1 : INT_MIN ≤ a) (h2 : a ≤ INT_MAX) :
    ∃ v, s32_div a 2 = some v := by
  unfold INT_MIN at h1
  unfold INT_MAX at h2
  unfold s32_div
  rw [if_neg (by decide)]
  by_cases h : 0 ≤ a
  · rw [Int.tdiv_eq_ediv h (by decide)]
    exact ⟨_, s32_chk_some _ (by unfold INT_MIN; omega) (by unfold INT_MAX; omega)⟩
  · obtain ⟨n, hn⟩ := Int.eq_ofNat_of_zero_le (by omega : 0 ≤ -a)
    have e : a = -(n : Int) := by omega
    rw [e, Int.neg_tdiv, Int.tdiv_eq_ediv (by omega) (by decide)]
    exact ⟨_, s32_chk_some _ (by unfold INT_MIN; omega) (by unfold INT_MAX; omega)⟩

/-- With a stored size between 0 and 2^30 and a target between 1 and `max`, no step of
`mt9p031_skip_for_scale` is undefined. -/
theorem skip_for_scale_defined (source target max_skip max : Int)
    (hs : 0 ≤ source) (hs2 : source ≤ 1073741824)
    (ht : 1 ≤ target) (hmax : target ≤ max) (hmax2 : max ≤ 65535) :
    ∃ r, mt9p031_skip_for_scale source target max_skip max = some r := by
  unfold mt9p031_skip_for_scale
  rw [s32_div_pos source 4 hs (by unfold INT_MAX; omega) (by decide)]
  simp only [Option.some_bind]
  unfold s32_sub
  rw [s32_chk_some _ (by unfold INT_MIN; omega) (by unfold INT_MAX; omega)]
  simp only [Option.some_bind]
  by_cases hd : source - source / 4 < target
  · rw [if_pos hd]
    exact ⟨_, rfl⟩
  · rw [if_neg hd]
    rw [s32_div_pos target 2 (by omega) (by unfold INT_MAX; omega) (by decide)]
    simp only [Option.some_bind]
    unfold s32_add
    rw [s32_chk_some _ (by unfold INT_MIN; omega) (by unfold INT_MAX; omega)]
    simp only [Option.some_bind]
    have hmin : target ≤ c_min max (source + target / 2) ∧
        c_min max (source + target / 2) ≤ max := by
      unfold c_min
      split <;> constructor <;> omega
    rw [s32_div_pos _ target (by omega) (by unfold INT_MAX; omega) (by omega)]
    exact ⟨_, rfl⟩

/-- The start coordinate is defined when the size is small and the stored start is within
2^30 of zero. -/
theorem set_format_start_defined (size start max : Int)
    (h1 : 0 ≤ size) (h2 : size ≤ 65535 * 8) (h3 : -1073741824 ≤ start)
    (h4 : start ≤ 1073741824) (h5 : 0 ≤ max) (h6 : max ≤ 65535) :
    ∃ v, mt9p031_set_format_start size start max = some v := by
  unfold mt9p031_set_format_start s32_add s32_sub
  rw [s32_chk_some _ (by unfold INT_MIN; omega) (by unfold INT_MAX; omega)]
  simp only [Option.some_bind]
  split
  · rw [s32_chk_some _ (by unfold INT_MIN; omega) (by unfold INT_MAX; omega)]
    simp only [Option.some_bind]
    exact s32_div_two_defined _ (by unfold INT_MIN; omega) (by unfold INT_MAX; omega)
  · exact ⟨_, rfl⟩

theorem load_crop_store_format (s : mt9p031) (fh : v4l2_subdev_fh) (f c : PadPtr)
    (w h : Nat) :
    load_crop (store_format_size s fh f w h).1 (store_format_size s fh f w h).2 c =
      load_crop s fh c := by
  cases f <;> cases c <;> rfl

/-- The shape of every result of `mt9p031_set_format`. -/
theorem set_format_some (s : mt9p031) (fh : v4l2_subdev_fh) (format : v4l2_subdev_format)
    (r : Int × mt9p031 × v4l2_subdev_fh × v4l2_subdev_format)
    (h : mt9p031_set_format s fh format = some r) :
    ∃ c x y left top,
      mt9p031_get_pad_crop format.pad format.which = some c ∧
      mt9p031_skip_for_scale (load_crop s fh c).width
        (to_s32 (to_u32 (clamp_t_int (ALIGN_u32 format.format.width 2) 2
          MT9P031_WINDOW_WIDTH_MAX))) 7 MT9P031_WINDOW_WIDTH_MAX = some x ∧
      mt9p031_skip_for_scale (load_crop s fh c).height
        (to_s32 (to_u32 (clamp_t_int (ALIGN_u32 format.format.height 2) 2
          MT9P031_WINDOW_HEIGHT_MAX))) 8 MT9P031_WINDOW_HEIGHT_MAX = some y ∧
      r.1 = 0 ∧
      load_crop r.2.1 r.2.2.1 c = { left := left, top := top, width := x.2, height := y.2 } ∧
      r.2.1.rect = { left := left, top := top, width := x.2, height := y.2 } ∧
      load_format r.2.1 r.2.2.1 c =
        { load_format s fh c with
          width := to_u32 (clamp_t_int (ALIGN_u32 format.format.width 2) 2
            MT9P031_WINDOW_WIDTH_MAX),
          height := to_u32 (clamp_t_int (ALIGN_u32 format.format.height 2) 2
            MT9P031_WINDOW_HEIGHT_MAX) } ∧
      r.2.2.2.format = load_format r.2.1 r.2.2.1 c ∧
      r.2.1.xskip = x.1 ∧ r.2.1.yskip = y.1 := by
  unfold mt9p031_set_format at h
  simp only [get_pad_format_eq_crop] at h
  cases hc : mt9p031_get_pad_crop format.pad format.which with
  | none => rw [hc] at h; exact absurd h (by simp)
  | some c =>
    rw [hc] at h
    simp only [] at h
    cases hx : mt9p031_skip_for_scale (load_crop s fh c).width
        (to_s32 (to_u32 (clamp_t_int (ALIGN_u32 format.format.width 2) 2
          MT9P031_WINDOW_WIDTH_MAX))) 7 MT9P031_WINDOW_WIDTH_MAX with
    | none => rw [hx] at h; exact absurd h (by simp)
    | some x =>
      rw [hx] at h
      simp only [Option.some_bind] at h
      cases hl : mt9p031_set_format_start x.2 (load_crop s fh c).left
          MT9P031_WINDOW_WIDTH_MAX with
      | none => rw [hl] at h; exact absurd h (by simp)
      | some left =>
        rw [hl] at h
        simp only [Option.some_bind] at h
        cases hy : mt9p031_skip_for_scale (load_crop s fh c).height
            (to_s32 (to_u32 (clamp_t_int (ALIGN_u32 format.format.height 2) 2
              MT9P031_WINDOW_HEIGHT_MAX))) 8 MT9P031_WINDOW_HEIGHT_MAX with
        | none => rw [hy] at h; exact absurd h (by simp)
        | some y =>
          rw [hy] at h
          simp only [Option.some_bind] at h
          cases ht : mt9p031_set_format_start y.2 (load_crop s fh c).top
              MT9P031_WINDOW_HEIGHT_MAX with
          | none => rw [ht] at h; exact absurd h (by simp)
          | some top =>
            rw [ht] at h
            simp only [Option.some_bind, Option.some.injEq] at h
            refine ⟨c, x, y, left, top, rfl, hx, hy, ?_⟩
            rw [← h]
            simp only [load_crop_store_format, load_store_crop]
            refine ⟨trivial, ?_, trivial, ?_, ?_, trivial, trivial⟩
            · cases c <;> simp [store_crop, store_format_size, load_crop]
            · cases c <;> simp [store_crop, store_format_size, load_format]
            · cases c <;> simp [store_crop, store_format_size, load_format]

/-- The call returns when `which` is one of the two defined values, the stored crop size
is between 0 and 2^30 and the stored crop position is within 2^30 of zero. -/
theorem set_format_defined (s : mt9p031) (fh : v4l2_subdev_fh) (format : v4l2_subdev_format)
    (hw : format.which = V4L2_SUBDEV_FORMAT_TRY ∨ format.which = V4L2_SUBDEV_FORMAT_ACTIVE)
    (hc : ∀ c, mt9p031_get_pad_crop format.pad format.which = some c →
      (0 ≤ (load_crop s fh c).width ∧ (load_crop s fh c).width ≤ 1073741824) ∧
      (0 ≤ (load_crop s fh c).height ∧ (load_crop s fh c).height ≤ 1073741824) ∧
      (-1073741824 ≤ (load_crop s fh c).left ∧ (load_crop s fh c).left ≤ 1073741824) ∧
      (-1073741824 ≤ (load_crop s fh c).top ∧ (load_crop s fh c).top ≤ 1073741824)) :
    ∃ r, mt9p031_set_format s fh format = some r := by
  obtain ⟨c, hcs⟩ := get_pad_crop_some format.pad format.which hw
  obtain ⟨⟨w1, w2⟩, ⟨h1, h2⟩, ⟨l1, l2⟩, ⟨t1, t2⟩⟩ := hc c hcs
  obtain ⟨bw1, bw2, bw3⟩ := set_format_size_bounds format.format.width
    MT9P031_WINDOW_WIDTH_MAX (by decide) (by decide)
  obtain ⟨bh1, bh2, bh3⟩ := set_format_size_bounds format.format.height
    MT9P031_WINDOW_HEIGHT_MAX (by decide) (by decide)
  have bw4 : ((to_u32 (clamp_t_int (ALIGN_u32 format.format.width 2) 2
      MT9P031_WINDOW_WIDTH_MAX) : Nat) : Int) ≤ 2751 := bw2
  have bh4 : ((to_u32 (clamp_t_int (ALIGN_u32 format.format.height 2) 2
      MT9P031_WINDOW_HEIGHT_MAX) : Nat) : Int) ≤ 2003 := bh2
  obtain ⟨x, hx⟩ := skip_for_scale_defined (load_crop s fh c).width
    (to_s32 (to_u32 (clamp_t_int (ALIGN_u32 format.format.width 2) 2
      MT9P031_WINDOW_WIDTH_MAX))) 7 MT9P031_WINDOW_WIDTH_MAX w1 w2
    (by rw [bw3]; omega) (by rw [bw3]; exact bw2) (by decide)
  obtain ⟨y, hy⟩ := skip_for_scale_defined (load_crop s fh c).height
    (to_s32 (to_u32 (clamp_t_int (ALIGN_u32 format.format.height 2) 2
      MT9P031_WINDOW_HEIGHT_MAX))) 8 MT9P031_WINDOW_HEIGHT_MAX h1 h2
    (by rw [bh3]; omega) (by rw [bh3]; exact bh2) (by decide)
  obtain ⟨ex, ex1, ex2⟩ := skip_for_scale_spec _ _ _ _ x (by rw [bw3]; omega)
    (by rw [bw3]; exact bw2) (by decide) (by decide) (by decide)
    (by rw [bw3]; unfold INT_MAX; omega) hx
  obtain ⟨ey, ey1, ey2⟩ := skip_for_scale_spec _ _ _ _ y (by rw [bh3]; omega)
    (by rw [bh3]; exact bh2) (by decide) (by decide) (by decide)
    (by rw [bh3]; unfold INT_MAX; omega) hy
  rw [bw3] at ex
  rw [bh3] at ey
  have px : 0 ≤ x.2 ∧ x.2 ≤ 65535 * 8 := by
    rw [ex]
    constructor
    · exact Int.mul_nonneg (by omega) (by omega)
    · have : ((to_u32 (clamp_t_int (ALIGN_u32 format.format.width 2) 2
          MT9P031_WINDOW_WIDTH_MAX) : Nat) : Int) * (x.1 : Int) ≤ 2751 * 7 :=
        Int.mul_le_mul bw4 ex2 (by omega) (by decide)
      omega
  have py : 0 ≤ y.2 ∧ y.2 ≤ 65535 * 8 := by
    rw [ey]
    constructor
    · exact Int.mul_nonneg (by omega) (by omega)
    · have : ((to_u32 (clamp_t_int (ALIGN_u32 format.format.height 2) 2
          MT9P031_WINDOW_HEIGHT_MAX) : Nat) : Int) * (y.1 : Int) ≤ 2003 * 8 :=
        Int.mul_le_mul bh4 ey2 (by omega) (by decide)
      omega
  obtain ⟨left, hl⟩ := set_format_start_defined x.2 (load_crop s fh c).left
    MT9P031_WINDOW_WIDTH_MAX px.1 px.2 l1 l2 (by decide) (by decide)
  obtain ⟨top, htp⟩ := set_format_start_defined y.2 (load_crop s fh c).top
    MT9P031_WINDOW_HEIGHT_MAX py.1 py.2 t1 t2 (by decide) (by decide)
  unfold mt9p031_set_format
  simp only [get_pad_format_eq_crop, hcs, hx, hy, hl, htp, Option.some_bind]
  exact ⟨_, rfl⟩

/-- C14: after every `mt9p031_set_format` call the selected crop rectangle, which is also
the device's sensor window, has exactly the size of the selected pad format times the skip
factors: crop width = format width * `xskip`, crop height = format height * `yskip`, with
`1 <= xskip <= 7` and `1 <= yskip <= 8`.  The call returns whenever `which` is TRY or ACTIVE,
the stored crop width and height are between 0 and 2^30 and the stored crop position is
within 2^30 of zero. -/
theorem mt9p031_set_format_crop_size (s : mt9p031) (fh : v4l2_subdev_fh)
    (format : v4l2_subdev_format) :
    (∀ r c f, mt9p031_set_format s fh format = some r →
      mt9p031_get_pad_crop format.pad format.which = some c →
      mt9p031_get_pad_format format.pad format.which = some f →
      (load_crop r.2.1 r.2.2.1 c).width =
        (((load_format r.2.1 r.2.2.1 f).width * r.2.1.xskip : Nat) : Int) ∧
      (load_crop r.2.1 r.2.2.1 c).height =
        (((load_format r.2.1 r.2.2.1 f).height * r.2.1.yskip : Nat) : Int) ∧
      r.2.1.rect = load_crop r.2.1 r.2.2.1 c ∧
      r.2.2.2.format = load_format r.2.1 r.2.2.1 f ∧
      (1 ≤ r.2.1.xskip ∧ r.2.1.xskip ≤ 7) ∧ (1 ≤ r.2.1.yskip ∧ r.2.1.yskip ≤ 8)) ∧
    ((format.which = V4L2_SUBDEV_FORMAT_TRY ∨ format.which = V4L2_SUBDEV_FORMAT_ACTIVE) →
      (∀ c, mt9p031_get_pad_crop format.pad format.which = some c →
        (0 ≤ (load_crop s fh c).width ∧ (load_crop s fh c).width ≤ 1073741824) ∧
        (0 ≤ (load_crop s fh c).height ∧ (load_crop s fh c).height ≤ 1073741824) ∧
        (-1073741824 ≤ (load_crop s fh c).left ∧ (load_crop s fh c).left ≤ 1073741824) ∧
        (-1073741824 ≤ (load_crop s fh c).top ∧ (load_crop s fh c).top ≤ 1073741824)) →
      ∃ r, mt9p031_set_format s fh format = some r) := by
  refine ⟨?_, set_format_defined s fh format⟩
  intro r c f hr hc hf
  obtain ⟨c1, x, y, left, top, hc1, hx, hy, _, hcrop, hrect, hfmt, hrep, hxs, hys⟩ :=
    set_format_some s fh format r hr
  rw [get_pad_format_eq_crop, hc] at hf
  rw [hc] at hc1
  simp only [Option.some.injEq] at hf hc1
  subst hf
  subst hc1
  obtain ⟨bw1, bw2, bw3⟩ := set_format_size_bounds format.format.width
    MT9P031_WINDOW_WIDTH_MAX (by decide) (by decide)
  obtain ⟨bh1, bh2, bh3⟩ := set_format_size_bounds format.format.height
    MT9P031_WINDOW_HEIGHT_MAX (by decide) (by decide)
  have bw4 : ((to_u32 (clamp_t_int (ALIGN_u32 format.format.width 2) 2
      MT9P031_WINDOW_WIDTH_MAX) : Nat) : Int) ≤ 2751 := bw2
  have bh4 : ((to_u32 (clamp_t_int (ALIGN_u32 format.format.height 2) 2
      MT9P031_WINDOW_HEIGHT_MAX) : Nat) : Int) ≤ 2003 := bh2
  obtain ⟨ex, ex1, ex2⟩ := skip_for_scale_spec _ _ _ _ x (by rw [bw3]; omega)
    (by rw [bw3]; exact bw2) (by decide) (by decide) (by decide)
    (by rw [bw3]; unfold INT_MAX; omega) hx
  obtain ⟨ey, ey1, ey2⟩ := skip_for_scale_spec _ _ _ _ y (by rw [bh3]; omega)
    (by rw [bh3]; exact bh2) (by decide) (by decide) (by decide)
    (by rw [bh3]; unfold INT_MAX; omega) hy
  rw [bw3] at ex
  rw [bh3] at ey
  rw [hcrop, hfmt, hrect, hrep, hxs, hys]
  refine ⟨?_, ?_, rfl, hfmt, ⟨ex1, by omega⟩, ⟨ey1, by omega⟩⟩
  · show x.2 = _
    rw [ex]
    push_cast
    rfl
  · show y.2 = _
    rw [ey]
    push_cast
    rfl

/-- Witness for C14: a 640 x 480 request on the idle sensor. -/
theorem mt9p031_set_format_crop_size_witness :
    ∃ r, mt9p031_set_format sensor_idle fh_idle format_vga = some r ∧
      r.2.1.rect.width = ((r.2.1.format.width * r.2.1.xskip : Nat) : Int) ∧
      r.2.1.rect.height = ((r.2.1.format.height * r.2.1.yskip : Nat) : Int) ∧
      (1 ≤ r.2.1.xskip ∧ r.2.1.xskip ≤ 7) ∧ (1 ≤ r.2.1.yskip ∧ r.2.1.yskip ≤ 8) := by
  obtain ⟨r, hr⟩ := (mt9p031_set_format_crop_size sensor_idle fh_idle format_vga).2
    (Or.inr rfl) (by
      intro c hc
      have e : c = PadPtr.active := by
        have : mt9p031_get_pad_crop format_vga.pad format_vga.which = some PadPtr.active := rfl
        rw [this] at hc
        exact (Option.some.inj hc).symm
      subst e
      decide)
  have h := (mt9p031_set_format_crop_size sensor_idle fh_idle format_vga).1 r
    PadPtr.active PadPtr.active hr rfl rfl
  exact ⟨r, hr, h.1, h.2.1, h.2.2.2.2⟩

/-! ### `mt9p031_skip_for_crop` -/

/-- Rounding `n` up to a multiple of `2 * k` overshoots by less than `2 * k`. -/
theorem div_round_up_cover (n k : Nat) (hk : 1 ≤ k) :
    n ≤ 2 * ((n + 2 * k - 1) / (2 * k)) * k ∧
    2 * ((n + 2 * k - 1) / (2 * k)) * k < n + 2 * k ∧
    (k = 1 → 2 * ((n + 2 * k - 1) / (2 * k)) ≤ n + 1) ∧
    (2 ≤ k → 4 * ((n + 2 * k - 1) / (2 * k)) ≤ n + 2 * k - 1) := by
  have h1 := Nat.div_add_mod (n + 2 * k - 1) (2 * k)
  have h2 := Nat.mod_lt (n + 2 * k - 1) (by omega : 2 * k > 0)
  generalize (n + 2 * k - 1) / (2 * k) = q at h1 ⊢
  generalize (n + 2 * k - 1) % (2 * k) = m at h1 h2
  have e : 2 * q * k = 2 * k * q := by ring
  rw [e]
  refine ⟨by omega, by omega, ?_, ?_⟩
  · intro hk1
    subst hk1
    omega
  · intro hk2
    have : 4 * q ≤ 2 * k * q := Nat.mul_le_mul_right q (by omega)
    omega

/-- The second half of `mt9p031_skip_for_crop` for a skip `k` between 1 and 65535 and a
source `n` below `INT_MAX`. -/
theorem skip_for_crop_round (n k : Nat) (hn : n < 2147483647) (hk1 : 1 ≤ k)
    (hk2 : k ≤ 65535) (r : Nat × Int)
    (h : ((DIV_ROUND_UP n ((2 * k) % 4294967296)).bind fun a =>
      some (to_u16 k, to_s32 ((2 * a) % 4294967296))) = some r) :
    r.1 = k ∧ (n : Int) ≤ r.2 * (k : Int) ∧ r.2 * (k : Int) < (n : Int) + 2 * (k : Int) := by
  obtain ⟨c1, c2, c3, c4⟩ := div_round_up_cover n k hk1
  unfold DIV_ROUND_UP u32_div at h
  rw [Nat.mod_eq_of_lt (by omega : 2 * k < 4294967296), if_neg (by omega)] at h
  have e1 : (n + 2 * k + 4294967295) % 4294967296 = n + 2 * k - 1 := by omega
  rw [e1] at h
  simp only [Option.some_bind, Option.some.injEq] at h
  have hq : 2 * ((n + 2 * k - 1) / (2 * k)) < 2147483648 := by
    by_cases hk : k = 1
    · have := c3 hk
      omega
    · have := c4 (by omega)
      omega
  rw [Nat.mod_eq_of_lt (by omega), to_s32_small _ hq] at h
  rw [← h]
  simp only []
  refine ⟨Nat.mod_eq_of_lt (by omega), ?_, ?_⟩
  · have : ((n : Nat) : Int) ≤ ((2 * ((n + 2 * k - 1) / (2 * k)) * k : Nat) : Int) := by
      exact_mod_cast c1
    simpa using this
  · have : ((2 * ((n + 2 * k - 1) / (2 * k)) * k : Nat) : Int) < ((n + 2 * k : Nat) : Int) := by
      exact_mod_cast c2
    simpa using this

/-- Every result of `mt9p031_skip_for_crop` for a source in `[1, INT_MAX)`, a positive
target and a limit between 1 and 65535. -/
theorem skip_for_crop_spec (source target max_skip : Int) (r : Nat × Int)
    (hs : 1 ≤ source) (hs2 : source < INT_MAX) (ht : 1 ≤ target) (ht2 : target ≤ INT_MAX)
    (hm : 1 ≤ max_skip) (hm2 : max_skip ≤ 65535)
    (h : mt9p031_skip_for_crop source target max_skip = some r) :
    1 ≤ r.1 ∧ (r.1 : Int) ≤ max_skip ∧
    source ≤ r.2 * (r.1 : Int) ∧ r.2 * (r.1 : Int) < source + 2 * (r.1 : Int) ∧
    (source - source / 4 < target → r = (1, source)) := by
  unfold INT_MAX at hs2 ht2
  unfold mt9p031_skip_for_crop at h
  rw [s32_div_pos source 4 (by omega) (by unfold INT_MAX; omega) (by omega)] at h
  simp only [Option.some_bind] at h
  unfold s32_sub at h
  rw [s32_chk_some _ (by unfold INT_MIN; omega) (by unfold INT_MAX; omega)] at h
  simp only [Option.some_bind] at h
  by_cases hd : source - source / 4 < target
  · rw [if_pos hd] at h
    simp only [Option.some.injEq] at h
    rw [← h]
    refine ⟨by simp, by simpa using hm, by simp, by simp, fun _ => rfl⟩
  · rw [if_neg hd] at h
    unfold DIV_ROUND_CLOSEST at h
    rw [s32_div_pos target 2 (by omega) (by unfold INT_MAX; omega) (by omega)] at h
    simp only [Option.some_bind] at h
    cases hsum : s32_add source (target / 2) with
    | none => rw [hsum] at h; exact absurd h (by simp)
    | some sum =>
      rw [hsum] at h
      simp only [Option.some_bind] at h
      obtain ⟨esum, _, hsum2⟩ := s32_chk_eq _ _ hsum
      unfold INT_MAX at hsum2
      rw [s32_div_pos sum target (by omega) (by unfold INT_MAX; omega) (by omega)] at h
      simp only [Option.some_bind] at h
      have hc1 : 1 ≤ sum / target := by
        apply Int.le_ediv_of_mul_le (by omega)
        omega
      have hc2 : sum / target ≤ sum := Int.ediv_le_self _ (by omega)
      rw [to_u32_small (sum / target) (by omega) (by omega),
        to_u32_small max_skip (by omega) (by omega),
        to_u32_small source (by omega) (by omega)] at h
      obtain ⟨n, hn⟩ := Int.eq_ofNat_of_zero_le (by omega : 0 ≤ source)
      have en : source.toNat = n := by rw [hn]; rfl
      rw [en] at h
      have fin : ∀ k : Nat, 1 ≤ k → (k : Int) ≤ max_skip →
          ((DIV_ROUND_UP n ((2 * k) % 4294967296)).bind fun a =>
            some (to_u16 k, to_s32 ((2 * a) % 4294967296))) = some r →
          1 ≤ r.1 ∧ (r.1 : Int) ≤ max_skip ∧
          source ≤ r.2 * (r.1 : Int) ∧ r.2 * (r.1 : Int) < source + 2 * (r.1 : Int) ∧
          (source - source / 4 < target → r = (1, source)) := by
        intro k hk1 hk2 hk
        obtain ⟨e1, e2, e3⟩ := skip_for_crop_round n k (by omega) hk1 (by omega) r hk
        rw [e1]
        refine ⟨hk1, hk2, ?_, ?_, fun hlt => absurd hlt hd⟩
        · rw [hn]; exact e2
        · rw [hn]; exact e3
      by_cases hgt : (sum / target).toNat > max_skip.toNat
      · rw [if_pos hgt] at h
        exact fin max_skip.toNat (by omega) (by omega) h
      · rw [if_neg hgt] at h
        exact fin (sum / target).toNat (by omega) (by omega) h

/-- C15, as stated, fails in two places.  With `max_skip = 65536` the skip 65536 does not
fit the `u16` return type and the function returns 0; with `source = INT_MAX` the rounded
target 2^31 does not fit `s32` and `*target` becomes `INT_MIN`. -/
theorem mt9p031_skip_for_crop_overflows :
    (mt9p031_skip_for_crop 65536 1 65536 = some (0, 2) ∧ ¬ (1 ≤ (0 : Nat))) ∧
    (mt9p031_skip_for_crop 2147483647 1 1 = some (1, -2147483648) ∧
      ¬ ((2147483647 : Int) ≤ -2147483648 * 1)) := by
  decide

/-- C15 (amended): for every source with `1 <= source < INT_MAX`, every target `>= 1` and
every `max_skip` with `1 <= max_skip <= 65535`, a result of `mt9p031_skip_for_crop` is a
skip `k` with `1 <= k <= max_skip` and a rewritten target `t` with
`source <= t * k < source + 2 * k`; when `source - source / 4 < target` it is `k = 1` and
`t = source`.  The function returns whenever moreover `source <= 2^30`. -/
theorem mt9p031_skip_for_crop_cover (source target max_skip : Int)
    (hs : 1 ≤ source) (hs2 : source < INT_MAX) (ht : 1 ≤ target) (ht2 : target ≤ INT_MAX)
    (hm : 1 ≤ max_skip) (hm2 : max_skip ≤ 65535) :
    (∀ r, mt9p031_skip_for_crop source target max_skip = some r →
      1 ≤ r.1 ∧ (r.1 : Int) ≤ max_skip ∧
      source ≤ r.2 * (r.1 : Int) ∧ r.2 * (r.1 : Int) < source + 2 * (r.1 : Int) ∧
      (source - source / 4 < target → r = (1, source))) ∧
    (source ≤ 1073741824 → ∃ r, mt9p031_skip_for_crop source target max_skip = some r) := by
  constructor
  · intro r h
    exact skip_for_crop_spec source target max_skip r hs hs2 ht ht2 hm hm2 h
  · intro hs3
    exact skip_for_crop_defined source target max_skip hs hs3 ht ht2 hm
      (by unfold INT_MAX; omega)

/-- Witness for C15 (amended): a 2752 pixel wide crop against a 640 pixel wide format
with limit 7 gives skip 4 and target 688, and 2752 <= 688 * 4 < 2752 + 8. -/
theorem mt9p031_skip_for_crop_cover_witness :
    mt9p031_skip_for_crop 2752 640 7 = some (4, 688) ∧
    (2752 : Int) ≤ 688 * 4 ∧ (688 : Int) * 4 < 2752 + 2 * 4 := by
  have h := (mt9p031_skip_for_crop_cover 2752 640 7 (by decide) (by decide) (by decide)
    (by decide) (by decide) (by decide)).1 (4, 688) (by decide)
  exact ⟨by decide, h.2.2.1, h.2.2.2.1⟩

/-! ### Notification pairing in `omap_target` -/

theorem log_quiet_nil : log_quiet [] := ⟨by simp, by simp⟩

theorem log_quiet_append {a b : List CpufreqOp} (ha : log_quiet a) (hb : log_quiet b) :
    log_quiet (a ++ b) := by
  constructor
  · intro f st hmem
    rcases List.mem_append.1 hmem with h | h
    · exact ha.1 f st h
    · exact hb.1 f st h
  · intro rate hmem
    rcases List.mem_append.1 hmem with h | h
    · exact ha.2 rate h
    · exact hb.2 rate h

theorem omap_getspeed_quiet (p : omap_platform) (k : omap_cpufreq) (cpu : Nat) :
    ∃ g, (omap_getspeed p k cpu).2.log = k.log ++ g ∧ log_quiet g ∧
      (omap_getspeed p k cpu).2.mpu_clk_rate = k.mpu_clk_rate := by
  unfold omap_getspeed
  split
  · exact ⟨[], by simp, log_quiet_nil, rfl⟩
  · exact ⟨[CpufreqOp.clk_get_rate], rfl, ⟨by simp, by simp⟩, rfl⟩

theorem omap_target_notify_log (p : omap_platform) (k : omap_cpufreq)
    (policy : cpufreq_policy) (old new state : Nat) :
    (omap_target_notify p k policy old new state).log =
      k.log ++ (omap_target_affected p policy).map fun i =>
        CpufreqOp.cpufreq_notify_transition { cpu := i, old := old, new := new } state := by
  unfold omap_target_notify omap_target_affected
  split <;> rfl

theorem omap_target_notify_rate (p : omap_platform) (k : omap_cpufreq)
    (policy : cpufreq_policy) (old new state : Nat) :
    (omap_target_notify p k policy old new state).mpu_clk_rate = k.mpu_clk_rate := by
  unfold omap_target_notify
  split <;> rfl

/-- The calls of `omap_target` after the frequency is resolved: none that notifies or sets
the rate, or the paired sequence, in which case the return value is that of
`clk_set_rate`. -/
theorem omap_target_transition_paired (p : omap_platform) (k : omap_cpufreq)
    (policy : cpufreq_policy) (new : Nat) :
    ∃ ops, (omap_target_transition p k policy new).2.log = k.log ++ ops ∧
      (log_quiet ops ∨
        (log_paired (omap_target_affected p policy) ops ∧
          (omap_target_transition p k policy new).1 =
            (p.clk_set_rate k.mpu_clk_rate ((new * 1000) % 4294967296)).1)) := by
  unfold omap_target_transition
  split
  · exact ⟨[], by simp, Or.inl log_quiet_nil⟩
  · obtain ⟨g1, hg1, hq1, hr1⟩ := omap_getspeed_quiet p k policy.cpu
    simp only []
    split
    · exact ⟨g1, hg1, Or.inl hq1⟩
    · obtain ⟨g2, hg2, hq2, _⟩ := omap_getspeed_quiet p
        { omap_target_notify p (omap_getspeed p k policy.cpu).2 policy
            (omap_getspeed p k policy.cpu).1 new CPUFREQ_PRECHANGE with
          mpu_clk_rate := (p.clk_set_rate (omap_target_notify p
            (omap_getspeed p k policy.cpu).2 policy (omap_getspeed p k policy.cpu).1 new
            CPUFREQ_PRECHANGE).mpu_clk_rate ((new * 1000) % 4294967296)).2,
          log := (omap_target_notify p (omap_getspeed p k policy.cpu).2 policy
            (omap_getspeed p k policy.cpu).1 new CPUFREQ_PRECHANGE).log ++
            [CpufreqOp.clk_set_rate ((new * 1000) % 4294967296)] } policy.cpu
      rw [omap_target_notify_log, omap_target_update_lpj_log, hg2]
      simp only []
      rw [omap_target_notify_log, hg1, omap_target_notify_rate, hr1]
      simp only [List.append_assoc]
      exact ⟨_, rfl, Or.inr ⟨⟨g1, g2, _, _, _, _, rfl, hq1, hq2⟩, trivial⟩⟩

theorem notify_count_append (a b : List CpufreqOp) (state cpu : Nat) :
    notify_count (a ++ b) state cpu = notify_count a state cpu + notify_count b state cpu := by
  unfold notify_count
  rw [List.countP_append]

theorem notify_count_quiet (a : List CpufreqOp) (state cpu : Nat) (h : log_quiet a) :
    notify_count a state cpu = 0 := by
  unfold notify_count
  rw [List.countP_eq_zero]
  intro op hop
  cases op with
  | cpufreq_notify_transition f st => exact absurd hop (h.1 f st)
  | _ => simp

theorem notify_count_set_rate (rate state cpu : Nat) :
    notify_count [CpufreqOp.clk_set_rate rate] state cpu = 0 := by
  simp [notify_count]

theorem notify_count_map (cpus : List Nat) (old new st state cpu : Nat) :
    notify_count (cpus.map fun i => CpufreqOp.cpufreq_notify_transition
      { cpu := i, old := old, new := new } st) state cpu =
      if st = state then cpus.count cpu else 0 := by
  induction cpus with
  | nil => simp [notify_count]
  | cons a rest ih =>
    unfold notify_count at ih ⊢
    rw [List.map_cons, List.countP_cons, ih, List.count_cons]
    by_cases hs : st = state <;> by_cases ha : a = cpu <;> simp [hs, ha]

/-- In a paired log every CPU is notified as often as it occurs among the affected CPUs,
once for `CPUFREQ_PRECHANGE` and once for `CPUFREQ_POSTCHANGE`, and the `clk_set_rate`
call is in the log. -/
theorem log_paired_counts (affected : List Nat) (ops : List CpufreqOp)
    (h : log_paired affected ops) (cpu : Nat) :
    notify_count ops CPUFREQ_PRECHANGE cpu = affected.count cpu ∧
    notify_count ops CPUFREQ_POSTCHANGE cpu = affected.count cpu ∧
    ∃ rate, CpufreqOp.clk_set_rate rate ∈ ops := by
  obtain ⟨before, mid, old, new, new2, rate, hops, hb, hm⟩ := h
  rw [hops]
  simp only [notify_count_append, notify_count_quiet _ _ _ hb, notify_count_quiet _ _ _ hm,
    notify_count_set_rate, notify_count_map]
  refine ⟨?_, ?_, rate, by simp⟩
  · simp [CPUFREQ_PRECHANGE, CPUFREQ_POSTCHANGE]
  · simp [CPUFREQ_PRECHANGE, CPUFREQ_POSTCHANGE]

/-- The calls of a returning `omap_target`. -/
theorem omap_target_calls (p : omap_platform) (k : omap_cpufreq) (policy : cpufreq_policy)
    (target_freq relation : Nat) (r : Int × omap_cpufreq)
    (h : omap_target p k policy target_freq relation = some r) :
    ∃ ops, r.2.log = k.log ++ ops ∧
      (log_quiet ops ∨
        (log_paired (omap_target_affected p policy) ops ∧
          ∃ rate, r.1 = (p.clk_set_rate k.mpu_clk_rate rate).1)) := by
  unfold omap_target at h
  split at h
  · simp only [Option.some.injEq] at h
    rw [← h]
    exact ⟨[], by simp, Or.inl log_quiet_nil⟩
  · cases hres : omap_target_resolve p k policy target_freq relation with
    | none => rw [hres] at h; exact absurd h (by simp)
    | some v =>
      obtain ⟨v1, k1⟩ := v
      obtain ⟨⟨op, hlog, hop⟩, hrate, _, _⟩ :=
        omap_target_resolve_log p k policy target_freq relation v1 k1 hres
      have hq : log_quiet [op] := by
        rcases hop with e | ⟨rate, e⟩ <;> rw [e] <;> exact ⟨by simp, by simp⟩
      rw [hres] at h
      cases v1 with
      | inl ret =>
        simp only [Option.some.injEq] at h
        rw [← h]
        exact ⟨[op], hlog, Or.inl hq⟩
      | inr new =>
        simp only [Option.some.injEq] at h
        rw [← h]
        obtain ⟨ops, hops, hcase⟩ := omap_target_transition_paired p k1 policy new
        refine ⟨[op] ++ ops, by rw [hops, hlog, List.append_assoc], ?_⟩
        rcases hcase with hquiet | ⟨hpair, hret⟩
        · exact Or.inl (log_quiet_append hq hquiet)
        · right
          obtain ⟨before, mid, old, nw, new2, rate, e, hb, hm⟩ := hpair
          refine ⟨⟨[op] ++ before, mid, old, nw, new2, rate, ?_, log_quiet_append hq hb, hm⟩,
            ⟨_, by rw [hret, hrate]⟩⟩
          rw [e, List.append_assoc]

/-- The call returns unless a successful table lookup answers an index outside the
table. -/
theorem omap_target_defined (p : omap_platform) (k : omap_cpufreq) (policy : cpufreq_policy)
    (target_freq relation : Nat)
    (hidx : ∀ table, p.freq_table = some table →
      (p.cpufreq_frequency_table_target policy table target_freq relation).1 = 0 →
      (p.cpufreq_frequency_table_target policy table target_freq relation).2 < table.length) :
    ∃ r, omap_target p k policy target_freq relation = some r := by
  unfold omap_target
  split
  · exact ⟨_, rfl⟩
  · unfold omap_target_resolve
    cases ht : p.freq_table with
    | none => exact ⟨_, rfl⟩
    | some table =>
      simp only []
      by_cases hret : (p.cpufreq_frequency_table_target policy table target_freq relation).1 ≠ 0
      · rw [if_pos hret]
        exact ⟨_, rfl⟩
      · rw [if_neg hret]
        have hlt := hidx table ht (by simpa using hret)
        rw [List.get?_eq_get hlt]
        exact ⟨_, rfl⟩

/-- C16: in every `omap_target` call the transition notifications are paired.  Either the
calls made contain no notification and no `clk_set_rate` (early return, failed lookup, no
match, frequency unchanged), or they are: one `CPUFREQ_PRECHANGE` per affected CPU
(`policy->cpu` on a uniprocessor, each CPU of `policy->cpus` on SMP), then `clk_set_rate`,
then one `CPUFREQ_POSTCHANGE` per affected CPU, so that each affected CPU is notified
exactly once before and exactly once after; the value returned is whatever `clk_set_rate`
returned, an error included.  The call returns whenever a successful table lookup answers
an index inside the table. -/
theorem omap_target_notifications_paired (p : omap_platform) (k : omap_cpufreq)
    (policy : cpufreq_policy) (target_freq relation : Nat) :
    (∀ r, omap_target p k policy target_freq relation = some r →
      ∃ ops, r.2.log = k.log ++ ops ∧
        (log_quiet ops ∨
          (log_paired (omap_target_affected p policy) ops ∧
            (∃ rate, r.1 = (p.clk_set_rate k.mpu_clk_rate rate).1) ∧
            (∃ rate, CpufreqOp.clk_set_rate rate ∈ ops) ∧
            ∀ cpu,
              notify_count ops CPUFREQ_PRECHANGE cpu =
                (omap_target_affected p policy).count cpu ∧
              notify_count ops CPUFREQ_POSTCHANGE cpu =
                (omap_target_affected p policy).count cpu ∧
              ((omap_target_affected p policy).Nodup →
                cpu ∈ omap_target_affected p policy →
                notify_count ops CPUFREQ_PRECHANGE cpu = 1 ∧
                notify_count ops CPUFREQ_POSTCHANGE cpu = 1)))) ∧
    ((∀ table, p.freq_table = some table →
        (p.cpufreq_frequency_table_target policy table target_freq relation).1 = 0 →
        (p.cpufreq_frequency_table_target policy table target_freq relation).2 < table.length) →
      ∃ r, omap_target p k policy target_freq relation = some r) := by
  refine ⟨?_, omap_target_defined p k policy target_freq relation⟩
  intro r hr
  obtain ⟨ops, hops, hcase⟩ := omap_target_calls p k policy target_freq relation r hr
  refine ⟨ops, hops, ?_⟩
  rcases hcase with hq | ⟨hpair, hret⟩
  · exact Or.inl hq
  · right
    refine ⟨hpair, hret, (log_paired_counts _ _ hpair 0).2.2, ?_⟩
    intro cpu
    obtain ⟨c1, c2, _⟩ := log_paired_counts _ _ hpair cpu
    refine ⟨c1, c2, ?_⟩
    intro hnd hmem
    rw [c1, c2, List.count_eq_one_of_mem hnd hmem]
    exact ⟨rfl, rfl⟩

/-- Witness for C16: on a dual-core platform whose clock refuses the change, a request for
800 MHz at 600 MHz returns the error -22, and CPUs 0 and 1 are each notified once before
and once after the `clk_set_rate` call. -/
theorem omap_target_notifications_paired_witness :
    ∃ r, omap_target platform_smp_stuck cpufreq_600 policy_omap4 800000 0 = some r ∧
      r.1 = -22 ∧
      r.2.log =
        [CpufreqOp.cpufreq_frequency_table_target 800000 0, CpufreqOp.clk_get_rate,
         CpufreqOp.cpufreq_notify_transition { cpu := 0, old := 600000, new := 800000 } 0,
         CpufreqOp.cpufreq_notify_transition { cpu := 1, old := 600000, new := 800000 } 0,
         CpufreqOp.clk_set_rate 800000000, CpufreqOp.clk_get_rate,
         CpufreqOp.cpufreq_notify_transition { cpu := 0, old := 600000, new := 600000 } 1,
         CpufreqOp.cpufreq_notify_transition { cpu := 1, old := 600000, new := 600000 } 1] ∧
      ∃ ops, r.2.log = cpufreq_600.log ++ ops ∧
        notify_count ops CPUFREQ_PRECHANGE 0 = 1 ∧ notify_count ops CPUFREQ_POSTCHANGE 0 = 1 ∧
        notify_count ops CPUFREQ_PRECHANGE 1 = 1 ∧ notify_count ops CPUFREQ_POSTCHANGE 1 = 1 := by
  have hthm := omap_target_notifications_paired platform_smp_stuck cpufreq_600 policy_omap4
    800000 0
  obtain ⟨r, hr⟩ := hthm.2 (by
    intro table ht _
    have e : table = [300000, 600000, 800000, 1008000] := by
      have : platform_smp_stuck.freq_table = some [300000, 600000, 800000, 1008000] := rfl
      rw [this] at ht
      exact (Option.some.inj ht).symm
    subst e
    decide)
  have hval : (omap_target platform_smp_stuck cpufreq_600 policy_omap4 800000 0).map
      (fun q => (q.1, q.2.log)) =
      some (-22,
        [CpufreqOp.cpufreq_frequency_table_target 800000 0, CpufreqOp.clk_get_rate,
         CpufreqOp.cpufreq_notify_transition { cpu := 0, old := 600000, new := 800000 } 0,
         CpufreqOp.cpufreq_notify_transition { cpu := 1, old := 600000, new := 800000 } 0,
         CpufreqOp.clk_set_rate 800000000, CpufreqOp.clk_get_rate,
         CpufreqOp.cpufreq_notify_transition { cpu := 0, old := 600000, new := 600000 } 1,
         CpufreqOp.cpufreq_notify_transition { cpu := 1, old := 600000, new := 600000 } 1]) := by
    decide
  rw [hr] at hval
  simp only [Option.map_some', Option.some.injEq, Prod.mk.injEq] at hval
  obtain ⟨ops, hops, hcase⟩ := hthm.1 r hr
  refine ⟨r, hr, hval.1, hval.2, ops, hops, ?_⟩
  rcases hcase with hq | ⟨_, _, _, hcount⟩
  · exfalso
    have hmem : CpufreqOp.clk_set_rate 800000000 ∈ ops := by
      have h2 : r.2.log = [] ++ ops := hops
      rw [hval.2, List.nil_append] at h2
      rw [← h2]
      decide
    exact hq.2 _ hmem
  · have hnd : (omap_target_affected platform_smp_stuck policy_omap4).Nodup := by decide
    exact ⟨((hcount 0).2.2 hnd (by decide)).1, ((hcount 0).2.2 hnd (by decide)).2,
      ((hcount 1).2.2 hnd (by decide)).1, ((hcount 1).2.2 hnd (by decide)).2⟩
